import Mathlib

/-!
# Verification of `setup/config-generator.py`

Shallow embedding of the configuration generator of the WebP Safe Migrator
repository.  The Python program loads a YAML configuration tree, substitutes
auto-generated secrets into it, and renders four textual artifacts
(docker-compose.yml, .env, a MySQL init script, and an install shell script).

The embedding models:
* YAML/Python values as the inductive type `Yaml` (strings, integers,
  booleans, null, lists, string-keyed maps);
* Python dict subscription (`d[k]`, raising `KeyError`), `d.get(k)` /
  `d.get(k, default)` and `str.lower()` failures as an `Except PyErr` monad;
* the `secrets.choice(alphabet)` randomness as an arbitrary stream
  `src : Nat → Nat` of draws, each draw selecting `alphabet[src n % len]`;
  distinct generated fields read disjoint regions of the stream, which is
  equivalent to sequential consumption because `src` is universally
  quantified;
* f-string rendering as explicit string concatenation, with every dict
  access bound in the same order in which Python evaluates it.
-/

set_option maxHeartbeats 1000000
set_option maxRecDepth 100000

namespace WebpMigrator

/-- A YAML / Python value as loaded by `yaml.safe_load`. -/
inductive Yaml where
  | str (s : String)
  | int (n : Int)
  | bool (b : Bool)
  | null
  | list (xs : List Yaml)
  | map (kvs : List (String × Yaml))
  deriving Repr

instance : Inhabited Yaml := ⟨.null⟩

namespace Yaml

/-- Structural (Python `==`) equality on values; lists and maps compare
elementwise. -/
def beq : Yaml → Yaml → Bool
  | .str a, .str b => a == b
  | .int a, .int b => a == b
  | .bool a, .bool b => a == b
  | .null, .null => true
  | .list a, .list b => beqList a b
  | .map a, .map b => beqMap a b
  | _, _ => false
where
  beqList : List Yaml → List Yaml → Bool
    | [], [] => true
    | x :: xs, y :: ys => beq x y && beqList xs ys
    | _, _ => false
  beqMap : List (String × Yaml) → List (String × Yaml) → Bool
    | [], [] => true
    | (k, v) :: xs, (k', v') :: ys => k == k' && beq v v' && beqMap xs ys
    | _, _ => false

instance : BEq Yaml := ⟨beq⟩

end Yaml

/-- Python exceptions that the generator can raise while walking the tree. -/
inductive PyErr where
  | keyError (k : String)
  | typeError (msg : String)
  | attributeError (msg : String)
  deriving Repr, DecidableEq

/-- Association-list lookup: the value stored under key `k`
(Python dict lookup; keys are unique in a dict, we return the first hit). -/
def alookup : List (String × Yaml) → String → Option Yaml
  | [], _ => none
  | (k', v) :: rest, k => if k' = k then some v else alookup rest k

/-- Python `d[k] = v` on a dict: replace the value of an existing key in
place, otherwise append the new binding (insertion order preserved). -/
def dictSet : List (String × Yaml) → String → Yaml → List (String × Yaml)
  | [], k, v => [(k, v)]
  | (k', v') :: rest, k, v =>
      if k' = k then (k', v) :: rest else (k', v') :: dictSet rest k v

namespace Yaml

/-- Python subscription `y[k]`: `KeyError` when the key is absent,
`TypeError` when the value is not a dict. -/
def getItem : Yaml → String → Except PyErr Yaml
  | .map kvs, k =>
      match alookup kvs k with
      | some v => .ok v
      | none => .error (.keyError k)
  | _, _ => .error (.typeError "object is not subscriptable")

/-- Python `y.get(k, d)`: `AttributeError` when `y` is not a dict. -/
def pyGet (y : Yaml) (k : String) (d : Yaml) : Except PyErr Yaml :=
  match y with
  | .map kvs => .ok ((alookup kvs k).getD d)
  | _ => .error (.attributeError "get")

/-- Python truthiness (`if x:`). -/
def truthy : Yaml → Bool
  | .str s => !(s.data.isEmpty)
  | .int n => n != 0
  | .bool b => b
  | .null => false
  | .list xs => !(xs.isEmpty)
  | .map kvs => !(kvs.isEmpty)

/-- Python `str(y)` as used at the interpolation sites of the generator's
f-strings.  Container values never occur at interpolation sites in the
configurations the program consumes, so their Python `repr` text is
abbreviated. -/
def pyStr : Yaml → String
  | .str s => s
  | .int n => toString n
  | .bool b => if b then "True" else "False"
  | .null => "None"
  | .list _ => "[...]"
  | .map _ => "\x7b...\x7d"

/-- Python `str.lower()` on the ASCII range (the generator lowercases only
boolean renderings and password markers; structural so that it reduces in
the kernel). -/
def pyLower (s : String) : String := ⟨s.data.map Char.toLower⟩

/-- Python `y.lower()`: only strings have the attribute. -/
def asLowerStr : Yaml → Except PyErr String
  | .str s => .ok (pyLower s)
  | _ => .error (.attributeError "lower")

/-- Read a value at a `/`-free key path (proof-side helper, not from the
source; `none` when any step is missing or hits a non-dict). -/
def getPath : Yaml → List String → Option Yaml
  | y, [] => some y
  | .map kvs, k :: rest =>
      match alookup kvs k with
      | some v => getPath v rest
      | none => none
  | _, _ :: _ => none

/-- Write a value at a key path, mirroring Python's in-place nested-dict
assignment (no-op on a non-dict along an existing path; in the program the
whole path is always dict-shaped when this is applied). -/
def setPath : Yaml → List String → Yaml → Yaml
  | _, [], v => v
  | .map kvs, k :: rest, v =>
      .map (dictSet kvs k (setPath ((alookup kvs k).getD .null) rest v))
  | y, _ :: _, _ => y

end Yaml

/-- Boolean list-prefix test. -/
def prefixOfB : List Char → List Char → Bool
  | [], _ => true
  | _ :: _, [] => false
  | a :: as, b :: bs => a == b && prefixOfB as bs

/-- Boolean list-infix test: `sub` occurs contiguously. -/
def infixOfB (sub : List Char) : List Char → Bool
  | [] => prefixOfB sub []
  | b :: bs => prefixOfB sub (b :: bs) || infixOfB sub bs

/-- Python `sub in s` substring test. -/
def strContains (s sub : String) : Bool :=
  infixOfB sub.toList s.toList

/-- `string.ascii_letters`. -/
def ascii_letters : String :=
  "abcdefghijklmnopqrstuvwxyzABCDEFGHIJKLMNOPQRSTUVWXYZ"

/-- `string.digits`. -/
def ascii_digits : String := "0123456789"

/-- Alphabet of `_generate_random_password`
(`string.ascii_letters + string.digits + "!@#$%^&*"`). -/
def password_alphabet : List Char :=
  (ascii_letters ++ ascii_digits ++ "!@#$%^&*").toList

/-- Alphabet of `_generate_wp_salt`
(`string.ascii_letters + string.digits + "!@#$%^&*()-_[]{}<>~`+=,.;:/?|"`). -/
def salt_alphabet : List Char :=
  (ascii_letters ++ ascii_digits ++ "!@#$%^&*()-_[]\x7b\x7d<>~`+=,.;:/?|").toList

/-- A stream of draws standing for the `secrets` module: draw `n` selects
index `src n % alphabet.length` of the alphabet. -/
abbrev RandSrc := Nat → Nat

/-- `''.join(secrets.choice(alphabet) for _ in range(len))`, reading draws
`off, off+1, …` from the stream. -/
def chooseChars (src : RandSrc) (off : Nat) (alphabet : List Char) (len : Nat) :
    List Char :=
  (List.range len).map (fun i => alphabet.getD (src (off + i) % alphabet.length) 'a')

/-- `_generate_random_password` (default length 16). -/
def _generate_random_password (src : RandSrc) (off : Nat) (length : Nat := 16) :
    String :=
  ⟨chooseChars src off password_alphabet length⟩

/-- `_generate_wp_salt`: a fresh 64-character WordPress salt. -/
def _generate_wp_salt (src : RandSrc) (off : Nat) : String :=
  ⟨chooseChars src off salt_alphabet 64⟩

/-- The 8 salt keys of `_substitute_auto_values`, in iteration order. -/
def salt_keys : List String :=
  ["auth_key", "secure_auth_key", "logged_in_key", "nonce_key",
   "auth_salt", "secure_auth_salt", "logged_in_salt", "nonce_salt"]

/-- The salt loop of `_substitute_auto_values`:
`for key in salt_keys: if not security.get(key): security[key] = self._generate_wp_salt()`.
The `i`-th generated salt reads stream region `[64*i, 64*i+64)`. -/
def substSalts (src : RandSrc) : Nat → List String → List (String × Yaml) →
    List (String × Yaml)
  | _, [], sec => sec
  | i, key :: rest, sec =>
      substSalts src (i + 1) rest
        (if Yaml.truthy ((alookup sec key).getD .null) then sec
         else dictSet sec key (.str (_generate_wp_salt src (64 * i))))

/-- Stream offsets of the three conditionally generated passwords
(root user, wordpress user, admin user); disjoint from the salt regions. -/
def rootPwOff : Nat := 512
def wpPwOff : Nat := 528
def adminPwOff : Nat := 544

/-- One password step of `_substitute_auto_values`:
`if 'auto' in tree[k1][k2][k3].lower(): tree[k1][k2][k3] = self._generate_random_password()`. -/
def substPassword (src : RandSrc) (off : Nat) (k1 k2 k3 : String) (cfg : Yaml) :
    Except PyErr Yaml := do
  let s1 ← cfg.getItem k1
  let s2 ← s1.getItem k2
  let v ← s2.getItem k3
  let low ← v.asLowerStr
  if strContains low "auto" then
    pure (cfg.setPath [k1, k2, k3] (.str (_generate_random_password src off)))
  else
    pure cfg

/-- `_substitute_auto_values`: salts first (in `salt_keys` order), then the
three password fields, each read from and written back into the current
tree exactly as the Python attribute chains do. -/
def _substitute_auto_values (src : RandSrc) (cfg : Yaml) : Except PyErr Yaml := do
  let wp ← cfg.getItem "wordpress"
  let security ← wp.getItem "security"
  match security with
  | .map sec =>
      let cfg1 := cfg.setPath ["wordpress", "security"] (.map (substSalts src 0 salt_keys sec))
      let cfg2 ← substPassword src rootPwOff "database" "root_user" "password" cfg1
      let cfg3 ← substPassword src wpPwOff "database" "wordpress_user" "password" cfg2
      substPassword src adminPwOff "wordpress" "admin_user" "password" cfg3
  | _ => .error (.attributeError "get")

/-- Python `str(y).lower()` (used for booleans in the templates). -/
def Yaml.pyStrLower (y : Yaml) : String := pyLower (Yaml.pyStr y)

/-- Lines 75–77 of `generate_docker_compose`, one line per port kind:
`ports.get(altKey, ports[key]) if ports.get(key) == dflt else ports[key]`.
Python evaluates the condition first; in the true branch the eager default
argument `ports[key]` is evaluated before the `.get` of the alternate. -/
def effectivePort (ports : Yaml) (key altKey : String) (dflt : Int) :
    Except PyErr Yaml := do
  let probe ← ports.pyGet key .null
  if probe == Yaml.int dflt then do
    let d ← ports.getItem key
    ports.pyGet altKey d
  else
    ports.getItem key

/-- Values of the phpMyAdmin block of the compose file (the root user's
credentials are shared with the base block and stored there). -/
structure PmaVals where
  pma_port : Yaml
  root_username : Yaml
  upload_limit : Yaml
  deriving Repr

/-- Values of the Redis block of the compose file. -/
structure RedisVals where
  redis_version : Yaml
  redis_port : Yaml
  max_memory : Yaml
  deriving Repr

/-- Every config value interpolated by `generate_docker_compose`, bound in
the order in which the Python code evaluates the dict accesses (values that
the template interpolates more than once are bound at their first read and
reused; the repeated reads are pure and cannot fail or change). -/
structure DcVals where
  http_port : Yaml
  https_port : Yaml
  mysql_port : Yaml
  wp_version : Yaml
  php_version : Yaml
  db_wp_username : Yaml
  db_wp_password : Yaml
  db_name : Yaml
  wp_debug : Yaml
  ssl_enabled : Yaml
  custom_domain : Yaml
  debug_log : Yaml
  debug_display : Yaml
  script_debug : Yaml
  wp_memory_limit : Yaml
  fs_method : Yaml
  force_ssl_admin : Yaml
  auth_key : Yaml
  secure_auth_key : Yaml
  logged_in_key : Yaml
  nonce_key : Yaml
  auth_salt : Yaml
  secure_auth_salt : Yaml
  logged_in_salt : Yaml
  nonce_salt : Yaml
  dev_mode : Yaml
  log_level : Yaml
  container_network : Yaml
  db_version : Yaml
  db_root_password : Yaml
  db_charset : Yaml
  db_collation : Yaml
  max_allowed_packet : Yaml
  innodb_buffer_pool_size : Yaml
  phpmyadmin : Option PmaVals
  redis : Option RedisVals
  network_driver : Yaml
  deriving Repr, Inhabited

/-- The five section lookups of `generate_docker_compose` (lines 67–71)
plus the `ports` section (line 74). -/
structure DcSections where
  db_config : Yaml
  wp_config : Yaml
  infra_config : Yaml
  ssl_config : Yaml
  services_config : Yaml
  ports : Yaml
  deriving Repr

/-- Lines 67–74 of `generate_docker_compose`. -/
def extractDcSections (cfg : Yaml) : Except PyErr DcSections := do
  let db_config ← cfg.getItem "database"
  let wp_config ← cfg.getItem "wordpress"
  let infra_config ← cfg.getItem "infrastructure"
  let ssl_config ← cfg.getItem "ssl"
  let services_config ← cfg.getItem "services"
  let ports ← infra_config.getItem "ports"
  pure ⟨db_config, wp_config, infra_config, ssl_config, services_config, ports⟩

/-- The interpolated values of the base compose f-string (lines 79–156)
other than the three precomputed ports. -/
structure DcBaseVals where
  wp_version : Yaml
  php_version : Yaml
  db_wp_username : Yaml
  db_wp_password : Yaml
  db_name : Yaml
  wp_debug : Yaml
  ssl_enabled : Yaml
  custom_domain : Yaml
  debug_log : Yaml
  debug_display : Yaml
  script_debug : Yaml
  wp_memory_limit : Yaml
  fs_method : Yaml
  force_ssl_admin : Yaml
  auth_key : Yaml
  secure_auth_key : Yaml
  logged_in_key : Yaml
  nonce_key : Yaml
  auth_salt : Yaml
  secure_auth_salt : Yaml
  logged_in_salt : Yaml
  nonce_salt : Yaml
  dev_mode : Yaml
  log_level : Yaml
  container_network : Yaml
  db_version : Yaml
  db_root_password : Yaml
  db_charset : Yaml
  db_collation : Yaml
  max_allowed_packet : Yaml
  innodb_buffer_pool_size : Yaml
  deriving Repr

/-- The dict walks of the base compose f-string (lines 79–156), in Python
evaluation order. -/
def extractDcBase (cfg : Yaml) (s : DcSections) : Except PyErr DcBaseVals := do
  let wp_version ← s.wp_config.getItem "version"
  let php ← cfg.getItem "php"
  let php_version ← php.getItem "version"
  let db_wp_user ← s.db_config.getItem "wordpress_user"
  let db_wp_username ← db_wp_user.getItem "username"
  let db_wp_password ← db_wp_user.getItem "password"
  let db_name ← s.db_config.getItem "name"
  let wp_cfg ← s.wp_config.getItem "config"
  let wp_debug ← wp_cfg.getItem "debug"
  let ssl_enabled ← s.ssl_config.getItem "enabled"
  let networking ← cfg.getItem "networking"
  let custom_domain ← networking.getItem "custom_domain"
  let debug_log ← wp_cfg.getItem "debug_log"
  let debug_display ← wp_cfg.getItem "debug_display"
  let script_debug ← wp_cfg.getItem "script_debug"
  let wp_memory_limit ← wp_cfg.getItem "wp_memory_limit"
  let fs_method ← wp_cfg.getItem "fs_method"
  let force_ssl_admin ← wp_cfg.getItem "force_ssl_admin"
  let security ← s.wp_config.getItem "security"
  let auth_key ← security.getItem "auth_key"
  let secure_auth_key ← security.getItem "secure_auth_key"
  let logged_in_key ← security.getItem "logged_in_key"
  let nonce_key ← security.getItem "nonce_key"
  let auth_salt ← security.getItem "auth_salt"
  let secure_auth_salt ← security.getItem "secure_auth_salt"
  let logged_in_salt ← security.getItem "logged_in_salt"
  let nonce_salt ← security.getItem "nonce_salt"
  let plugins ← cfg.getItem "plugins"
  let webp_migrator ← plugins.getItem "webp_migrator"
  let dev_mode ← webp_migrator.getItem "dev_mode"
  let log_level ← webp_migrator.getItem "log_level"
  let container_network ← networking.getItem "container_network"
  let db_version ← s.db_config.getItem "version"
  let db_root_user ← s.db_config.getItem "root_user"
  let db_root_password ← db_root_user.getItem "password"
  let db_charset ← s.db_config.getItem "charset"
  let db_collation ← s.db_config.getItem "collation"
  let db_performance ← s.db_config.getItem "performance"
  let max_allowed_packet ← db_performance.getItem "max_allowed_packet"
  let innodb_buffer_pool_size ← db_performance.getItem "innodb_buffer_pool_size"
  pure ⟨wp_version, php_version, db_wp_username, db_wp_password, db_name,
    wp_debug, ssl_enabled, custom_domain, debug_log, debug_display,
    script_debug, wp_memory_limit, fs_method, force_ssl_admin, auth_key,
    secure_auth_key, logged_in_key, nonce_key, auth_salt, secure_auth_salt,
    logged_in_salt, nonce_salt, dev_mode, log_level, container_network,
    db_version, db_root_password, db_charset, db_collation,
    max_allowed_packet, innodb_buffer_pool_size⟩

/-- Lines 158–177: the phpMyAdmin condition and, when included, the block's
dict walks (the root password and network name are re-reads of values
already bound by the base f-string). -/
def extractDcPma (s : DcSections) : Except PyErr (Option PmaVals) := do
  let pmaSection ← s.services_config.pyGet "phpmyadmin" (.map [])
  let pmaEnabled ← pmaSection.pyGet "enabled" (.bool true)
  if Yaml.truthy pmaEnabled then do
    let pma_port ← s.ports.getItem "phpmyadmin"
    let root_user ← s.db_config.getItem "root_user"
    let root_username ← root_user.getItem "username"
    let pma_sec ← s.services_config.getItem "phpmyadmin"
    let upload_limit ← pma_sec.getItem "upload_limit"
    pure (some ⟨pma_port, root_username, upload_limit⟩)
  else
    pure (none : Option PmaVals)

/-- Lines 179–193: the Redis condition and, when included, the block's
dict walks. -/
def extractDcRedis (s : DcSections) : Except PyErr (Option RedisVals) := do
  let redisSection ← s.services_config.pyGet "redis" (.map [])
  let redisEnabled ← redisSection.pyGet "enabled" (.bool false)
  if Yaml.truthy redisEnabled then do
    let redis_sec ← s.services_config.getItem "redis"
    let redis_version ← redis_sec.getItem "version"
    let redis_port ← s.ports.getItem "redis"
    let max_memory ← redis_sec.getItem "max_memory"
    pure (some ⟨redis_version, redis_port, max_memory⟩)
  else
    pure (none : Option RedisVals)

/-- The dict walks of `generate_docker_compose` (lines 65–213), in Python
evaluation order: the five section lookups, the three effective ports, the
base f-string's interpolations, then the two conditional service blocks and
the final network section. -/
def extractDc (cfg : Yaml) : Except PyErr DcVals := do
  let s ← extractDcSections cfg
  let http_port ← effectivePort s.ports "http" "alt_http" 80
  let https_port ← effectivePort s.ports "https" "alt_https" 443
  let mysql_port ← effectivePort s.ports "mysql" "alt_mysql" 3306
  let b ← extractDcBase cfg s
  let phpmyadmin ← extractDcPma s
  let redis ← extractDcRedis s
  let networking2 ← cfg.getItem "networking"
  let network_driver ← networking2.getItem "network_driver"
  pure ⟨http_port, https_port, mysql_port, b.wp_version, b.php_version,
    b.db_wp_username, b.db_wp_password, b.db_name, b.wp_debug, b.ssl_enabled,
    b.custom_domain, b.debug_log, b.debug_display, b.script_debug,
    b.wp_memory_limit, b.fs_method, b.force_ssl_admin, b.auth_key,
    b.secure_auth_key, b.logged_in_key, b.nonce_key, b.auth_salt,
    b.secure_auth_salt, b.logged_in_salt, b.nonce_salt, b.dev_mode,
    b.log_level, b.container_network, b.db_version, b.db_root_password,
    b.db_charset, b.db_collation, b.max_allowed_packet,
    b.innodb_buffer_pool_size, phpmyadmin, redis, network_driver⟩

/-- The base f-string of `generate_docker_compose` (lines 79–156), one Lean
string per template line (single quotes written `\x27`). -/
def dcBase (v : DcVals) : String :=
  "version: \x273.8\x27\n" ++
  "\n" ++
  "services:\n" ++
  "  wordpress:\n" ++
  "    build:\n" ++
  "      context: .\n" ++
  "      dockerfile: Dockerfile\n" ++
  "      args:\n" ++
  "        WORDPRESS_VERSION: " ++ Yaml.pyStr v.wp_version ++ "\n" ++
  "        PHP_VERSION: " ++ Yaml.pyStr v.php_version ++ "\n" ++
  "    container_name: webp-migrator-wordpress\n" ++
  "    ports:\n" ++
  "      - " ++ ("\"" ++ Yaml.pyStr v.http_port ++ ":80\"") ++ "\n" ++
  "      - " ++ ("\"" ++ Yaml.pyStr v.https_port ++ ":443\"") ++ "\n" ++
  "    environment:\n" ++
  "      WORDPRESS_DB_HOST: db\n" ++
  "      WORDPRESS_DB_USER: " ++ Yaml.pyStr v.db_wp_username ++ "\n" ++
  "      WORDPRESS_DB_PASSWORD: " ++ Yaml.pyStr v.db_wp_password ++ "\n" ++
  "      WORDPRESS_DB_NAME: " ++ Yaml.pyStr v.db_name ++ "\n" ++
  "      WORDPRESS_DEBUG: " ++ (if Yaml.truthy v.wp_debug then "1" else "0") ++ "\n" ++
  "      ENABLE_SSL: \"" ++ Yaml.pyStrLower v.ssl_enabled ++ "\"\n" ++
  "      CUSTOM_DOMAIN: \"" ++ Yaml.pyStr v.custom_domain ++ "\"\n" ++
  "      WORDPRESS_CONFIG_EXTRA: |\n" ++
  "        define(\x27WP_DEBUG_LOG\x27, " ++ Yaml.pyStrLower v.debug_log ++ ");\n" ++
  "        define(\x27WP_DEBUG_DISPLAY\x27, " ++ Yaml.pyStrLower v.debug_display ++ ");\n" ++
  "        define(\x27SCRIPT_DEBUG\x27, " ++ Yaml.pyStrLower v.script_debug ++ ");\n" ++
  "        define(\x27WP_MEMORY_LIMIT\x27, \x27" ++ Yaml.pyStr v.wp_memory_limit ++ "\x27);\n" ++
  "        define(\x27FS_METHOD\x27, \x27" ++ Yaml.pyStr v.fs_method ++ "\x27);\n" ++
  "        define(\x27FORCE_SSL_ADMIN\x27, " ++ Yaml.pyStrLower v.force_ssl_admin ++ ");\n" ++
  "        \n" ++
  "        /* WordPress Security Keys & Salts */\n" ++
  "        define(\x27AUTH_KEY\x27,         \x27" ++ Yaml.pyStr v.auth_key ++ "\x27);\n" ++
  "        define(\x27SECURE_AUTH_KEY\x27,  \x27" ++ Yaml.pyStr v.secure_auth_key ++ "\x27);\n" ++
  "        define(\x27LOGGED_IN_KEY\x27,    \x27" ++ Yaml.pyStr v.logged_in_key ++ "\x27);\n" ++
  "        define(\x27NONCE_KEY\x27,        \x27" ++ Yaml.pyStr v.nonce_key ++ "\x27);\n" ++
  "        define(\x27AUTH_SALT\x27,        \x27" ++ Yaml.pyStr v.auth_salt ++ "\x27);\n" ++
  "        define(\x27SECURE_AUTH_SALT\x27, \x27" ++ Yaml.pyStr v.secure_auth_salt ++ "\x27);\n" ++
  "        define(\x27LOGGED_IN_SALT\x27,   \x27" ++ Yaml.pyStr v.logged_in_salt ++ "\x27);\n" ++
  "        define(\x27NONCE_SALT\x27,       \x27" ++ Yaml.pyStr v.nonce_salt ++ "\x27);\n" ++
  "        \n" ++
  "        /* WebP Safe Migrator specific settings */\n" ++
  "        define(\x27WEBP_MIGRATOR_DEV_MODE\x27, " ++ Yaml.pyStrLower v.dev_mode ++ ");\n" ++
  "        define(\x27WEBP_MIGRATOR_LOG_LEVEL\x27, \x27" ++ Yaml.pyStr v.log_level ++ "\x27);\n" ++
  "    volumes:\n" ++
  "      - wordpress_data:/var/www/html\n" ++
  "      - ../src:/var/www/html/wp-content/plugins/webp-safe-migrator\n" ++
  "      - ./ssl-certs:/etc/ssl/certs/webp-migrator\n" ++
  "      - ./logs:/var/log/webp-migrator\n" ++
  "    depends_on:\n" ++
  "      - db\n" ++
  "    restart: unless-stopped\n" ++
  "    networks:\n" ++
  "      - " ++ Yaml.pyStr v.container_network ++ "\n" ++
  "\n" ++
  "  db:\n" ++
  "    image: mysql:" ++ Yaml.pyStr v.db_version ++ "\n" ++
  "    container_name: webp-migrator-mysql\n" ++
  "    environment:\n" ++
  "      MYSQL_DATABASE: " ++ Yaml.pyStr v.db_name ++ "\n" ++
  "      MYSQL_USER: " ++ Yaml.pyStr v.db_wp_username ++ "\n" ++
  "      MYSQL_PASSWORD: " ++ Yaml.pyStr v.db_wp_password ++ "\n" ++
  "      MYSQL_ROOT_PASSWORD: " ++ Yaml.pyStr v.db_root_password ++ "\n" ++
  "      MYSQL_INITDB_SKIP_TZINFO: 1\n" ++
  "    volumes:\n" ++
  "      - db_data:/var/lib/mysql\n" ++
  "      - ./mysql-init:/docker-entrypoint-initdb.d\n" ++
  "    ports:\n" ++
  "      - " ++ ("\"" ++ Yaml.pyStr v.mysql_port ++ ":3306\"") ++ "\n" ++
  "    command: >\n" ++
  "      --default-authentication-plugin=mysql_native_password\n" ++
  "      --character-set-server=" ++ Yaml.pyStr v.db_charset ++ "\n" ++
  "      --collation-server=" ++ Yaml.pyStr v.db_collation ++ "\n" ++
  "      --max_allowed_packet=" ++ Yaml.pyStr v.max_allowed_packet ++ "\n" ++
  "      --innodb_buffer_pool_size=" ++ Yaml.pyStr v.innodb_buffer_pool_size ++ "\n" ++
  "    restart: unless-stopped\n" ++
  "    networks:\n" ++
  "      - " ++ Yaml.pyStr v.container_network ++ "\n"

/-- The conditional phpMyAdmin block (lines 158–177). -/
def dcPma (v : DcVals) : String :=
  match v.phpmyadmin with
  | none => ""
  | some p =>
    "\n" ++
    "  phpmyadmin:\n" ++
    "    image: phpmyadmin:latest\n" ++
    "    container_name: webp-migrator-phpmyadmin\n" ++
    "    ports:\n" ++
    "      - " ++ ("\"" ++ Yaml.pyStr p.pma_port ++ ":80\"") ++ "\n" ++
    "    environment:\n" ++
    "      PMA_HOST: db\n" ++
    "      PMA_USER: " ++ Yaml.pyStr p.root_username ++ "\n" ++
    "      PMA_PASSWORD: " ++ Yaml.pyStr v.db_root_password ++ "\n" ++
    "      PMA_ARBITRARY: 1\n" ++
    "      UPLOAD_LIMIT: " ++ Yaml.pyStr p.upload_limit ++ "\n" ++
    "    depends_on:\n" ++
    "      - db\n" ++
    "    restart: unless-stopped\n" ++
    "    networks:\n" ++
    "      - " ++ Yaml.pyStr v.container_network ++ "\n"

/-- The conditional Redis block (lines 179–193). -/
def dcRedis (v : DcVals) : String :=
  match v.redis with
  | none => ""
  | some r =>
    "\n" ++
    "  redis:\n" ++
    "    image: redis:" ++ Yaml.pyStr r.redis_version ++ "\n" ++
    "    container_name: webp-migrator-redis\n" ++
    "    ports:\n" ++
    "      - " ++ ("\"" ++ Yaml.pyStr r.redis_port ++ ":6379\"") ++ "\n" ++
    "    command: redis-server --maxmemory " ++ Yaml.pyStr r.max_memory ++
      " --maxmemory-policy allkeys-lru\n" ++
    "    volumes:\n" ++
    "      - redis_data:/data\n" ++
    "    restart: unless-stopped\n" ++
    "    networks:\n" ++
    "      - " ++ Yaml.pyStr v.container_network ++ "\n"

/-- The volume declarations (lines 196–207); the `redis_data` volume is
appended exactly when the Redis service was included (the Python code
re-evaluates the same `services_config.get('redis', {}).get('enabled',
False)` condition, which is pure). -/
def dcVolumes (v : DcVals) : String :=
  "\n" ++
  "volumes:\n" ++
  "  wordpress_data:\n" ++
  "    driver: local\n" ++
  "  db_data:\n" ++
  "    driver: local\n" ++
  (match v.redis with
   | none => ""
   | some _ => "  redis_data:\n    driver: local\n")

/-- The network declaration (lines 209–213). -/
def dcNetworks (v : DcVals) : String :=
  "\n" ++
  "networks:\n" ++
  "  " ++ Yaml.pyStr v.container_network ++ ":\n" ++
  "    driver: " ++ Yaml.pyStr v.network_driver ++ "\n"

/-- Full rendering of the compose file from the extracted values. -/
def renderDc (v : DcVals) : String :=
  dcBase v ++ dcPma v ++ dcRedis v ++ dcVolumes v ++ dcNetworks v

/-- `generate_docker_compose` (lines 65–215). -/
def generate_docker_compose (cfg : Yaml) : Except PyErr String := do
  let v ← extractDc cfg
  pure (renderDc v)

/-- Every config value interpolated by `generate_env_file`, in Python
evaluation order. -/
structure EnvVals where
  container_engine : Yaml
  install_path : Yaml
  wp_version : Yaml
  php_version : Yaml
  custom_domain : Yaml
  ssl_enabled : Yaml
  db_name : Yaml
  db_wp_username : Yaml
  db_wp_password : Yaml
  db_root_password : Yaml
  http_port : Yaml
  https_port : Yaml
  mysql_port : Yaml
  phpmyadmin_port : Yaml
  wp_debug : Yaml
  debug_log : Yaml
  debug_display : Yaml
  script_debug : Yaml
  dev_mode : Yaml
  log_level : Yaml
  wp_memory_limit : Yaml
  php_memory_limit : Yaml
  php_max_execution_time : Yaml
  php_upload_max_filesize : Yaml
  php_post_max_size : Yaml
  web_server : Yaml
  deriving Repr

/-- The dict walks of `generate_env_file` (lines 217–274), in Python
evaluation order. -/
def extractEnv (cfg : Yaml) : Except PyErr EnvVals := do
  let db_config ← cfg.getItem "database"
  let wp_config ← cfg.getItem "wordpress"
  let infra_config ← cfg.getItem "infrastructure"
  let ssl_config ← cfg.getItem "ssl"
  let php_config ← cfg.getItem "php"
  let container_engine ← infra_config.getItem "container_engine"
  let install_path ← infra_config.getItem "install_path"
  let wp_version ← wp_config.getItem "version"
  let php_version ← php_config.getItem "version"
  let networking ← cfg.getItem "networking"
  let custom_domain ← networking.getItem "custom_domain"
  let ssl_enabled ← ssl_config.getItem "enabled"
  let db_name ← db_config.getItem "name"
  let db_wp_user ← db_config.getItem "wordpress_user"
  let db_wp_username ← db_wp_user.getItem "username"
  let db_wp_password ← db_wp_user.getItem "password"
  let db_root_user ← db_config.getItem "root_user"
  let db_root_password ← db_root_user.getItem "password"
  let ports ← infra_config.getItem "ports"
  let http_port ← ports.getItem "http"
  let https_port ← ports.getItem "https"
  let mysql_port ← ports.getItem "mysql"
  let phpmyadmin_port ← ports.getItem "phpmyadmin"
  let wp_cfg ← wp_config.getItem "config"
  let wp_debug ← wp_cfg.getItem "debug"
  let debug_log ← wp_cfg.getItem "debug_log"
  let debug_display ← wp_cfg.getItem "debug_display"
  let script_debug ← wp_cfg.getItem "script_debug"
  let plugins ← cfg.getItem "plugins"
  let webp_migrator ← plugins.getItem "webp_migrator"
  let dev_mode ← webp_migrator.getItem "dev_mode"
  let log_level ← webp_migrator.getItem "log_level"
  let wp_memory_limit ← wp_cfg.getItem "wp_memory_limit"
  let php_settings ← php_config.getItem "settings"
  let php_memory_limit ← php_settings.getItem "memory_limit"
  let php_max_execution_time ← php_settings.getItem "max_execution_time"
  let php_upload_max_filesize ← php_settings.getItem "upload_max_filesize"
  let php_post_max_size ← php_settings.getItem "post_max_size"
  let webserver ← cfg.getItem "webserver"
  let web_server ← webserver.getItem "type"
  pure ⟨container_engine, install_path, wp_version, php_version,
    custom_domain, ssl_enabled, db_name, db_wp_username, db_wp_password,
    db_root_password, http_port, https_port, mysql_port, phpmyadmin_port,
    wp_debug, debug_log, debug_display, script_debug, dev_mode, log_level,
    wp_memory_limit, php_memory_limit, php_max_execution_time,
    php_upload_max_filesize, php_post_max_size, web_server⟩

/-- The `.env` f-string (lines 225–273), one Lean string per template line
(`#` written `\x23`). -/
def renderEnv (v : EnvVals) : String :=
  "\x23 WebP Safe Migrator - Generated Environment Configuration\n" ++
  "\x23 Generated automatically from webp-migrator-config.yaml\n" ++
  "\n" ++
  "\x23 Infrastructure Configuration\n" ++
  "CONTAINER_ENGINE=" ++ Yaml.pyStr v.container_engine ++ "\n" ++
  "INSTALL_PATH=" ++ Yaml.pyStr v.install_path ++ "\n" ++
  "\n" ++
  "\x23 WordPress Configuration\n" ++
  "WORDPRESS_VERSION=" ++ Yaml.pyStr v.wp_version ++ "\n" ++
  "PHP_VERSION=" ++ Yaml.pyStr v.php_version ++ "\n" ++
  "\n" ++
  "\x23 Domain Configuration\n" ++
  "CUSTOM_DOMAIN=" ++ Yaml.pyStr v.custom_domain ++ "\n" ++
  "\n" ++
  "\x23 SSL Configuration\n" ++
  "ENABLE_SSL=" ++ Yaml.pyStrLower v.ssl_enabled ++ "\n" ++
  "\n" ++
  "\x23 Database Configuration\n" ++
  "MYSQL_DATABASE=" ++ Yaml.pyStr v.db_name ++ "\n" ++
  "MYSQL_USER=" ++ Yaml.pyStr v.db_wp_username ++ "\n" ++
  "MYSQL_PASSWORD=" ++ Yaml.pyStr v.db_wp_password ++ "\n" ++
  "MYSQL_ROOT_PASSWORD=" ++ Yaml.pyStr v.db_root_password ++ "\n" ++
  "\n" ++
  "\x23 Port Configuration\n" ++
  "HTTP_PORT=" ++ Yaml.pyStr v.http_port ++ "\n" ++
  "HTTPS_PORT=" ++ Yaml.pyStr v.https_port ++ "\n" ++
  "MYSQL_PORT=" ++ Yaml.pyStr v.mysql_port ++ "\n" ++
  "PHPMYADMIN_PORT=" ++ Yaml.pyStr v.phpmyadmin_port ++ "\n" ++
  "\n" ++
  "\x23 WordPress Debug Settings\n" ++
  "WORDPRESS_DEBUG=" ++ (if Yaml.truthy v.wp_debug then "1" else "0") ++ "\n" ++
  "WP_DEBUG_LOG=" ++ Yaml.pyStrLower v.debug_log ++ "\n" ++
  "WP_DEBUG_DISPLAY=" ++ Yaml.pyStrLower v.debug_display ++ "\n" ++
  "SCRIPT_DEBUG=" ++ Yaml.pyStrLower v.script_debug ++ "\n" ++
  "\n" ++
  "\x23 Plugin Configuration\n" ++
  "WEBP_MIGRATOR_DEV_MODE=" ++ Yaml.pyStrLower v.dev_mode ++ "\n" ++
  "WEBP_MIGRATOR_LOG_LEVEL=" ++ Yaml.pyStr v.log_level ++ "\n" ++
  "\n" ++
  "\x23 Performance Settings\n" ++
  "WP_MEMORY_LIMIT=" ++ Yaml.pyStr v.wp_memory_limit ++ "\n" ++
  "PHP_MEMORY_LIMIT=" ++ Yaml.pyStr v.php_memory_limit ++ "\n" ++
  "PHP_MAX_EXECUTION_TIME=" ++ Yaml.pyStr v.php_max_execution_time ++ "\n" ++
  "PHP_UPLOAD_MAX_FILESIZE=" ++ Yaml.pyStr v.php_upload_max_filesize ++ "\n" ++
  "PHP_POST_MAX_SIZE=" ++ Yaml.pyStr v.php_post_max_size ++ "\n" ++
  "\n" ++
  "\x23 Web Server\n" ++
  "WEB_SERVER=" ++ Yaml.pyStr v.web_server ++ "\n"

/-- `generate_env_file` (lines 217–274). -/
def generate_env_file (cfg : Yaml) : Except PyErr String := do
  let v ← extractEnv cfg
  pure (renderEnv v)

/-- Every config value interpolated by `generate_mysql_init_sql`, in
Python evaluation order (the database name and the test username are each
interpolated twice but read the same entry). -/
structure SqlVals where
  db_name : Yaml
  db_charset : Yaml
  db_collation : Yaml
  test_username : Yaml
  test_password : Yaml
  max_allowed_packet : Yaml
  innodb_buffer_pool_size : Yaml
  max_connections : Yaml
  query_cache_size : Yaml
  deriving Repr

/-- The dict walks of `generate_mysql_init_sql` (lines 276–304). -/
def extractSql (cfg : Yaml) : Except PyErr SqlVals := do
  let db_config ← cfg.getItem "database"
  let db_name ← db_config.getItem "name"
  let db_charset ← db_config.getItem "charset"
  let db_collation ← db_config.getItem "collation"
  let test_user ← db_config.getItem "test_user"
  let test_username ← test_user.getItem "username"
  let test_password ← test_user.getItem "password"
  let performance ← db_config.getItem "performance"
  let max_allowed_packet ← performance.getItem "max_allowed_packet"
  let innodb_buffer_pool_size ← performance.getItem "innodb_buffer_pool_size"
  let max_connections ← performance.getItem "max_connections"
  let query_cache_size ← performance.getItem "query_cache_size"
  pure ⟨db_name, db_charset, db_collation, test_username, test_password,
    max_allowed_packet, innodb_buffer_pool_size, max_connections,
    query_cache_size⟩

/-- The SQL f-string (lines 280–303), one Lean string per template line
(single quotes written `\x27`). -/
def renderSql (v : SqlVals) : String :=
  "-- WebP Safe Migrator - Generated MySQL Initialization Script\n" ++
  "-- Generated automatically from configuration\n" ++
  "\n" ++
  "-- Ensure UTF8MB4 support for full Unicode compatibility\n" ++
  "ALTER DATABASE " ++ Yaml.pyStr v.db_name ++ " CHARACTER SET " ++
    Yaml.pyStr v.db_charset ++ " COLLATE " ++ Yaml.pyStr v.db_collation ++ ";\n" ++
  "\n" ++
  "-- Create additional test user\n" ++
  "CREATE USER IF NOT EXISTS \x27" ++ Yaml.pyStr v.test_username ++
    "\x27@\x27%\x27 IDENTIFIED BY \x27" ++ Yaml.pyStr v.test_password ++ "\x27;\n" ++
  "GRANT ALL PRIVILEGES ON " ++ Yaml.pyStr v.db_name ++ ".* TO \x27" ++
    Yaml.pyStr v.test_username ++ "\x27@\x27%\x27;\n" ++
  "\n" ++
  "-- Optimize MySQL settings for development\n" ++
  "SET GLOBAL max_allowed_packet = " ++ Yaml.pyStr v.max_allowed_packet ++ ";\n" ++
  "SET GLOBAL innodb_buffer_pool_size = " ++ Yaml.pyStr v.innodb_buffer_pool_size ++ ";\n" ++
  "SET GLOBAL max_connections = " ++ Yaml.pyStr v.max_connections ++ ";\n" ++
  "\n" ++
  "-- Set query cache if specified\n" ++
  "SET GLOBAL query_cache_size = " ++ Yaml.pyStr v.query_cache_size ++ ";\n" ++
  "\n" ++
  "-- Flush privileges to ensure all changes take effect\n" ++
  "FLUSH PRIVILEGES;\n" ++
  "\n" ++
  "-- Log the initialization\n" ++
  "SELECT \x27WebP Safe Migrator database initialized successfully\x27 as message;\n"

/-- `generate_mysql_init_sql` (lines 276–304). -/
def generate_mysql_init_sql (cfg : Yaml) : Except PyErr String := do
  let v ← extractSql cfg
  pure (renderSql v)

/-- Python iteration over a value: only lists are iterated by the
generator. -/
def Yaml.asList : Yaml → Except PyErr (List Yaml)
  | .list xs => .ok xs
  | _ => .error (.typeError "object is not iterable")

/-- One additional-user block of `generate_install_script`
(lines 381–389); `user['username']` is interpolated twice but read once. -/
def userLines (user : Yaml) : Except PyErr String := do
  let username ← user.getItem "username"
  let email ← user.getItem "email"
  let password ← user.getItem "password"
  let role ← user.getItem "role"
  let first_name ← user.pyGet "first_name" (.str "")
  let last_name ← user.pyGet "last_name" (.str "")
  pure (
    "    log_info \"Creating user: " ++ Yaml.pyStr username ++ "\"\n" ++
    "    docker-compose exec -T wpcli wp user create \\\n" ++
    "        " ++ Yaml.pyStr username ++ " " ++ Yaml.pyStr email ++ " \\\n" ++
    "        --user_pass=\"" ++ Yaml.pyStr password ++ "\" \\\n" ++
    "        --role=\"" ++ Yaml.pyStr role ++ "\" \\\n" ++
    "        --first_name=\"" ++ Yaml.pyStr first_name ++ "\" \\\n" ++
    "        --last_name=\"" ++ Yaml.pyStr last_name ++ "\"\n")

/-- One plugin block of `generate_install_script` (lines 398–413): dispatch
on `plugin['source']`; an unrecognized source emits nothing. -/
def pluginLines (plugin : Yaml) : Except PyErr String := do
  let source ← plugin.getItem "source"
  if source == Yaml.str "local" then do
    let slug ← plugin.getItem "slug"
    pure (
      "    log_info \"Activating plugin: " ++ Yaml.pyStr slug ++ "\"\n" ++
      "    docker-compose exec -T wpcli wp plugin activate " ++
        Yaml.pyStr slug ++ "\n")
  else if source == Yaml.str "wordpress_org" then do
    let activate ← plugin.pyGet "activate" (.bool false)
    let activate_flag := if Yaml.truthy activate then "--activate" else ""
    let slug ← plugin.getItem "slug"
    pure (
      "    log_info \"Installing plugin from WordPress.org: " ++
        Yaml.pyStr slug ++ "\"\n" ++
      "    docker-compose exec -T wpcli wp plugin install " ++
        Yaml.pyStr slug ++ " " ++ activate_flag ++ "\n")
  else if source == Yaml.str "zip_url" then do
    let activate ← plugin.pyGet "activate" (.bool false)
    let activate_flag := if Yaml.truthy activate then "--activate" else ""
    let slug ← plugin.getItem "slug"
    let url ← plugin.getItem "url"
    pure (
      "    log_info \"Installing plugin from URL: " ++ Yaml.pyStr slug ++ "\"\n" ++
      "    docker-compose exec -T wpcli wp plugin install " ++
        Yaml.pyStr url ++ " " ++ activate_flag ++ "\n")
  else
    pure ""

/-- One sample-content block of `generate_install_script` (lines 423–430);
`content['type']` and `content['title']` are interpolated twice but read
once. -/
def contentLines (content : Yaml) : Except PyErr String := do
  let ctype ← content.getItem "type"
  let title ← content.getItem "title"
  let body ← content.getItem "content"
  let status ← content.getItem "status"
  pure (
    "    log_info \"Creating " ++ Yaml.pyStr ctype ++ ": " ++ Yaml.pyStr title ++ "\"\n" ++
    "    docker-compose exec -T wpcli wp post create \\\n" ++
    "        --post_type=" ++ Yaml.pyStr ctype ++ " \\\n" ++
    "        --post_title=\"" ++ Yaml.pyStr title ++ "\" \\\n" ++
    "        --post_content=\"" ++ Yaml.pyStr body ++ "\" \\\n" ++
    "        --post_status=" ++ Yaml.pyStr status ++ "\n")

/-- One post-install action block (lines 448–454): recognized tokens map to
a fixed command line, anything else emits nothing. -/
def actionLines (action : Yaml) : String :=
  if action == Yaml.str "flush_rewrite_rules" then
    "    docker-compose exec -T wpcli wp rewrite flush\n"
  else if action == Yaml.str "set_permissions" then
    "    docker-compose exec wordpress chown -R www-data:www-data /var/www/html\n"
  else
    ""

/-- Every value of `generate_install_script`: the skeleton's interpolated
config fields plus the pre-rendered per-entry blocks, in Python evaluation
order. -/
structure InstVals where
  site_title : Yaml
  admin_username : Yaml
  admin_password : Yaml
  admin_email : Yaml
  site_url : Yaml
  site_language : Yaml
  max_wait_time : Yaml
  db_wp_username : Yaml
  db_wp_password : Yaml
  db_name : Yaml
  user_blocks : List String
  plugin_blocks : List String
  content_blocks : List String
  wait_for_services : Yaml
  auto_install_wordpress : Yaml
  additional_users_probe : Yaml
  auto_activate_plugins : Yaml
  auto_create_content : Yaml
  action_blocks : List String
  deriving Repr

/-- The dict walks and per-entry loops of `generate_install_script`
(lines 306–470), in Python evaluation order. -/
def extractInst (cfg : Yaml) : Except PyErr InstVals := do
  let wp_config ← cfg.getItem "wordpress"
  let automation_config ← cfg.getItem "automation"
  let site ← wp_config.getItem "site"
  let site_title ← site.getItem "title"
  let admin_user ← wp_config.getItem "admin_user"
  let admin_username ← admin_user.getItem "username"
  let admin_password ← admin_user.getItem "password"
  let admin_email ← admin_user.getItem "email"
  let site_url ← site.getItem "url"
  let site_language ← site.getItem "language"
  let max_wait_time ← automation_config.getItem "max_wait_time"
  let database ← cfg.getItem "database"
  let db_wp_user ← database.getItem "wordpress_user"
  let db_wp_username ← db_wp_user.getItem "username"
  let db_wp_password ← db_wp_user.getItem "password"
  let db_name ← database.getItem "name"
  let additional_users_y ← wp_config.pyGet "additional_users" (.list [])
  let additional_users ← additional_users_y.asList
  let user_blocks ← additional_users.mapM userLines
  let plugins_sect ← cfg.getItem "plugins"
  let plugins_install_y ← plugins_sect.getItem "install"
  let plugins_install ← plugins_install_y.asList
  let plugin_blocks ← plugins_install.mapM pluginLines
  let wp_content ← wp_config.getItem "content"
  let sample_posts_y ← wp_content.pyGet "sample_posts" (.list [])
  let sample_posts ← sample_posts_y.asList
  let content_blocks ← sample_posts.mapM contentLines
  let wait_for_services ← automation_config.getItem "wait_for_services"
  let auto_install_wordpress ← automation_config.getItem "auto_install_wordpress"
  let additional_users_probe ← wp_config.pyGet "additional_users" .null
  let auto_activate_plugins ← automation_config.getItem "auto_activate_plugins"
  let auto_create_content ← automation_config.getItem "auto_create_content"
  let post_install_y ← automation_config.pyGet "post_install" (.list [])
  let post_install ← post_install_y.asList
  let action_blocks := post_install.map actionLines
  pure ⟨site_title, admin_username, admin_password, admin_email, site_url,
    site_language, max_wait_time, db_wp_username, db_wp_password, db_name,
    user_blocks, plugin_blocks, content_blocks, wait_for_services,
    auto_install_wordpress, additional_users_probe, auto_activate_plugins,
    auto_create_content, action_blocks⟩

/-- The fixed skeleton of the install script up to the additional-users
section (lines 311–378); literal braces written `\x7b`/`\x7d`, single
quotes `\x27`. -/
def instSkeleton (v : InstVals) : String :=
  "#!/bin/bash\n" ++
  "# WebP Safe Migrator - Generated Automated Installation Script\n" ++
  "# Generated automatically from configuration\n" ++
  "\n" ++
  "set -e\n" ++
  "\n" ++
  "# Configuration variables\n" ++
  "SITE_TITLE=\"" ++ Yaml.pyStr v.site_title ++ "\"\n" ++
  "ADMIN_USER=\"" ++ Yaml.pyStr v.admin_username ++ "\"\n" ++
  "ADMIN_PASSWORD=\"" ++ Yaml.pyStr v.admin_password ++ "\"\n" ++
  "ADMIN_EMAIL=\"" ++ Yaml.pyStr v.admin_email ++ "\"\n" ++
  "SITE_URL=\"" ++ Yaml.pyStr v.site_url ++ "\"\n" ++
  "LANGUAGE=\"" ++ Yaml.pyStr v.site_language ++ "\"\n" ++
  "\n" ++
  "# Colors for output\n" ++
  "RED=\x27\\033[0;31m\x27\n" ++
  "GREEN=\x27\\033[0;32m\x27\n" ++
  "YELLOW=\x27\\033[1;33m\x27\n" ++
  "CYAN=\x27\\033[0;36m\x27\n" ++
  "NC=\x27\\033[0m\x27 # No Color\n" ++
  "\n" ++
  "log_info() \x7b\n" ++
  "    echo -e \"$\x7bCYAN\x7d[INFO]$\x7bNC\x7d $1\"\n" ++
  "\x7d\n" ++
  "\n" ++
  "log_success() \x7b\n" ++
  "    echo -e \"$\x7bGREEN\x7d[SUCCESS]$\x7bNC\x7d $1\"\n" ++
  "\x7d\n" ++
  "\n" ++
  "log_error() \x7b\n" ++
  "    echo -e \"$\x7bRED\x7d[ERROR]$\x7bNC\x7d $1\"\n" ++
  "\x7d\n" ++
  "\n" ++
  "# Wait for database to be ready\n" ++
  "wait_for_database() \x7b\n" ++
  "    log_info \"Waiting for database to be ready...\"\n" ++
  "    for i in \x7b1.." ++ Yaml.pyStr v.max_wait_time ++ "\x7d; do\n" ++
  "        if docker-compose exec -T db mysql -u " ++ Yaml.pyStr v.db_wp_username ++
    " -p" ++ Yaml.pyStr v.db_wp_password ++ " -e \"SELECT 1;\" " ++
    Yaml.pyStr v.db_name ++ " >/dev/null 2>&1; then\n" ++
  "            log_success \"Database is ready\"\n" ++
  "            return 0\n" ++
  "        fi\n" ++
  "        if [[ $i -eq " ++ Yaml.pyStr v.max_wait_time ++ " ]]; then\n" ++
  "            log_error \"Database not ready after " ++ Yaml.pyStr v.max_wait_time ++
    " seconds\"\n" ++
  "            return 1\n" ++
  "        fi\n" ++
  "        sleep 1\n" ++
  "    done\n" ++
  "\x7d\n" ++
  "\n" ++
  "# Install WordPress core\n" ++
  "install_wordpress() \x7b\n" ++
  "    log_info \"Installing WordPress core...\"\n" ++
  "    \n" ++
  "    docker-compose exec -T wpcli wp core install \\\n" ++
  "        --url=\"$SITE_URL\" \\\n" ++
  "        --title=\"$SITE_TITLE\" \\\n" ++
  "        --admin_user=\"$ADMIN_USER\" \\\n" ++
  "        --admin_password=\"$ADMIN_PASSWORD\" \\\n" ++
  "        --admin_email=\"$ADMIN_EMAIL\" \\\n" ++
  "        --locale=\"$LANGUAGE\" \\\n" ++
  "        --skip-email\n" ++
  "        \n" ++
  "    log_success \"WordPress core installed\"\n" ++
  "\x7d\n" ++
  "\n" ++
  "# Create additional users\n" ++
  "create_additional_users() \x7b\n"

/-- The `main()` section of the install script (lines 432–446): one line per
automation toggle, a call when the toggle is truthy and a fixed comment
placeholder when it is not. -/
def instMain (v : InstVals) : String :=
  "\n" ++
  "\x7d\n" ++
  "\n" ++
  "# Main installation function\n" ++
  "main() \x7b\n" ++
  "    log_info \"Starting automated WordPress installation...\"\n" ++
  "    \n" ++
  "    " ++ (if Yaml.truthy v.wait_for_services then "wait_for_database"
             else "# Skipping database wait") ++ "\n" ++
  "    " ++ (if Yaml.truthy v.auto_install_wordpress then "install_wordpress"
             else "# Skipping WordPress installation") ++ "\n" ++
  "    " ++ (if Yaml.truthy v.additional_users_probe then "create_additional_users"
             else "# No additional users to create") ++ "\n" ++
  "    " ++ (if Yaml.truthy v.auto_activate_plugins then "install_plugins"
             else "# Skipping plugin installation") ++ "\n" ++
  "    " ++ (if Yaml.truthy v.auto_create_content then "create_sample_content"
             else "# Skipping sample content creation") ++ "\n" ++
  "    \n" ++
  "    # Post-installation actions\n"

/-- The closing summary block of the install script (lines 456–468). -/
def instFooter (v : InstVals) : String :=
  "\n" ++
  "    log_success \"Installation completed successfully!\"\n" ++
  "    \n" ++
  "    echo \"\"\n" ++
  "    echo -e \"$\x7bCYAN\x7d🌐 WordPress Site: " ++ Yaml.pyStr v.site_url ++
    "$\x7bNC\x7d\"\n" ++
  "    echo -e \"$\x7bCYAN\x7d🔧 Admin Panel: " ++ Yaml.pyStr v.site_url ++
    "/wp-admin$\x7bNC\x7d\"\n" ++
  "    echo -e \"$\x7bYELLOW\x7d👤 Username: " ++ Yaml.pyStr v.admin_username ++
    "$\x7bNC\x7d\"\n" ++
  "    echo -e \"$\x7bYELLOW\x7d🔑 Password: " ++ Yaml.pyStr v.admin_password ++
    "$\x7bNC\x7d\"\n" ++
  "\x7d\n" ++
  "\n" ++
  "# Run main function\n" ++
  "main \"$@\"\n"

/-- Full rendering of the install script from the extracted values. -/
def renderInst (v : InstVals) : String :=
  instSkeleton v ++
  String.join v.user_blocks ++
  "\n\x7d\n\n# Install and activate plugins\ninstall_plugins() \x7b\n" ++
  String.join v.plugin_blocks ++
  "\n\x7d\n\n# Create sample content\ncreate_sample_content() \x7b\n" ++
  String.join v.content_blocks ++
  instMain v ++
  String.join v.action_blocks ++
  instFooter v

/-- `generate_install_script` (lines 306–470). -/
def generate_install_script (cfg : Yaml) : Except PyErr String := do
  let v ← extractInst cfg
  pure (renderInst v)

/-- `generate_all_configs` (lines 472–508) restricted to the core: the
substitution pass followed by the four renders, in the order in which the
`configs` dict literal evaluates them; file writes and permission bits are
external collaborators and are not modelled. -/
def generate_all_configs (src : RandSrc) (cfg : Yaml) :
    Except PyErr (String × String × String × String) := do
  let cfg' ← _substitute_auto_values src cfg
  let dc ← generate_docker_compose cfg'
  let env ← generate_env_file cfg'
  let sql ← generate_mysql_init_sql cfg'
  let inst ← generate_install_script cfg'
  pure (dc, env, sql, inst)

/-- Number of (possibly overlapping) occurrences of `pat` in `s`. -/
def countOccs (s pat : String) : Nat :=
  ((List.range (s.length + 1)).filter
    (fun i => prefixOfB pat.toList (s.toList.drop i))).length

section Lemmas

/-- Peeling one `Except` bind from a success. -/
theorem except_bind_ok {ε α β : Type} {x : Except ε α} {f : α → Except ε β} {b : β}
    (h : x >>= f = .ok b) : ∃ a, x = .ok a ∧ f a = .ok b := by
  cases x with
  | error e => simp [Bind.bind, Except.bind] at h
  | ok a => exact ⟨a, rfl, by simpa [Bind.bind, Except.bind] using h⟩

@[simp] theorem alookup_dictSet_self (kvs : List (String × Yaml)) (k : String)
    (v : Yaml) : alookup (dictSet kvs k v) k = some v := by
  induction kvs with
  | nil => simp [dictSet, alookup]
  | cons p rest ih =>
      obtain ⟨k', v'⟩ := p
      by_cases h : k' = k
      · simp [dictSet, h, alookup]
      · simp [dictSet, h, alookup, ih]

theorem alookup_dictSet_ne (kvs : List (String × Yaml)) {k k' : String}
    (v : Yaml) (h : k' ≠ k) :
    alookup (dictSet kvs k v) k' = alookup kvs k' := by
  induction kvs with
  | nil => simp [dictSet, alookup, Ne.symm h]
  | cons p rest ih =>
      obtain ⟨k₀, v₀⟩ := p
      by_cases h₀ : k₀ = k
      · subst h₀
        simp [dictSet, alookup, Ne.symm h]
      · simp [dictSet, h₀, alookup, ih]

theorem prefixOfB_append_self (m b : List Char) : prefixOfB m (m ++ b) = true := by
  induction m with
  | nil => simp [prefixOfB]
  | cons c cs ih => simp [prefixOfB, ih]

theorem prefixOfB_append_extend {m l : List Char} (b : List Char)
    (h : prefixOfB m l = true) : prefixOfB m (l ++ b) = true := by
  induction m generalizing l with
  | nil => simp [prefixOfB]
  | cons c cs ih =>
      cases l with
      | nil => simp [prefixOfB] at h
      | cons x xs =>
          simp [prefixOfB] at h ⊢
          exact ⟨h.1, ih h.2⟩

theorem infixOfB_nil_pat (l : List Char) : infixOfB [] l = true := by
  cases l <;> simp [infixOfB, prefixOfB]

theorem infixOfB_of_prefixOfB {m l : List Char} (h : prefixOfB m l = true) :
    infixOfB m l = true := by
  cases l with
  | nil => simpa [infixOfB] using h
  | cons c cs => simp [infixOfB, h]

theorem infixOfB_cons {m l : List Char} (c : Char) (h : infixOfB m l = true) :
    infixOfB m (c :: l) = true := by
  simp [infixOfB, h]

theorem infixOfB_append_left {m l : List Char} (a : List Char)
    (h : infixOfB m l = true) : infixOfB m (a ++ l) = true := by
  induction a with
  | nil => simpa using h
  | cons c cs ih => simpa using infixOfB_cons c ih

theorem infixOfB_append_right {m a : List Char} (b : List Char)
    (h : infixOfB m a = true) : infixOfB m (a ++ b) = true := by
  induction a with
  | nil =>
      cases m with
      | nil => simpa using infixOfB_nil_pat b
      | cons c cs => simp [infixOfB, prefixOfB] at h
  | cons x xs ih =>
      simp [infixOfB] at h
      rcases h with h | h
      · exact infixOfB_of_prefixOfB (by simpa using prefixOfB_append_extend b h)
      · simpa using infixOfB_cons x (ih h)

theorem strContains_refl (m : String) : strContains m m = true := by
  unfold strContains
  exact infixOfB_of_prefixOfB (by simpa using prefixOfB_append_self m.toList [])

theorem strContains_append_of_right {b m : String} (a : String)
    (h : strContains b m = true) : strContains (a ++ b) m = true := by
  unfold strContains at h ⊢
  simpa [String.toList, String.data_append] using infixOfB_append_left a.data h

theorem strContains_append_of_left {a m : String} (b : String)
    (h : strContains a m = true) : strContains (a ++ b) m = true := by
  unfold strContains at h ⊢
  simpa [String.toList, String.data_append] using infixOfB_append_right b.data h

/-- The rendered compose file always contains the three external-port
mappings computed by the effective-port rule. -/
theorem renderDc_contains_ports (v : DcVals) :
    strContains (renderDc v) ("\"" ++ Yaml.pyStr v.http_port ++ ":80\"") = true ∧
    strContains (renderDc v) ("\"" ++ Yaml.pyStr v.https_port ++ ":443\"") = true ∧
    strContains (renderDc v) ("\"" ++ Yaml.pyStr v.mysql_port ++ ":3306\"") = true := by
  unfold renderDc dcBase
  refine ⟨?_, ?_, ?_⟩ <;>
    repeat (first
      | (apply strContains_append_of_right; exact strContains_refl _)
      | apply strContains_append_of_left)

theorem effectivePort_alt {kvs : List (String × Yaml)} {alt : Yaml}
    {key altKey : String} {dflt : Int}
    (hk : alookup kvs key = some (.int dflt))
    (halt : alookup kvs altKey = some alt) :
    effectivePort (.map kvs) key altKey dflt = .ok alt := by
  simp [effectivePort, Yaml.pyGet, Yaml.getItem, hk, halt, Bind.bind,
    Except.bind, BEq.beq, Yaml.beq, Pure.pure, Except.pure]

theorem effectivePort_nondefault {kvs : List (String × Yaml)} {p : Yaml}
    {key altKey : String} {dflt : Int}
    (hk : alookup kvs key = some p) (hne : (p == Yaml.int dflt) = false) :
    effectivePort (.map kvs) key altKey dflt = .ok p := by
  simp [effectivePort, Yaml.pyGet, Yaml.getItem, hk, hne, Bind.bind,
    Except.bind, Pure.pure, Except.pure]

theorem effectivePort_default_no_alt {kvs : List (String × Yaml)}
    {key altKey : String} {dflt : Int}
    (hk : alookup kvs key = some (.int dflt))
    (halt : alookup kvs altKey = none) :
    effectivePort (.map kvs) key altKey dflt = .ok (.int dflt) := by
  simp [effectivePort, Yaml.pyGet, Yaml.getItem, hk, halt, Bind.bind,
    Except.bind, BEq.beq, Yaml.beq, Pure.pure, Except.pure]

end Lemmas

/-- Entries of a complete, realistic configuration tree (the repository
ships its default values in a YAML document outside `src/`; this tree only
has to be well-formed for the generators, concrete values are free). -/
def exampleConfigKvs : List (String × Yaml) := [
  ("database", .map [
    ("version", .str "8.0"),
    ("name", .str "wordpress_webp_test"),
    ("charset", .str "utf8mb4"),
    ("collation", .str "utf8mb4_unicode_ci"),
    ("wordpress_user", .map [("username", .str "wp_user"), ("password", .str "WpPass12!")]),
    ("root_user", .map [("username", .str "root"), ("password", .str "RootPass34!")]),
    ("test_user", .map [("username", .str "test_user"), ("password", .str "TestPass56!")]),
    ("performance", .map [
      ("max_allowed_packet", .str "256M"),
      ("innodb_buffer_pool_size", .str "512M"),
      ("max_connections", .int 200),
      ("query_cache_size", .int 0)])]),
  ("wordpress", .map [
    ("version", .str "latest"),
    ("site", .map [("title", .str "WebP Test Site"), ("url", .str "http://localhost:8080"),
                   ("language", .str "en_US")]),
    ("admin_user", .map [("username", .str "admin"), ("password", .str "AdminPass78!"),
                         ("email", .str "admin@example.test")]),
    ("additional_users", .list [
      .map [("username", .str "editor"), ("email", .str "editor@example.test"),
            ("password", .str "EditorPass90!"), ("role", .str "editor")]]),
    ("content", .map [("sample_posts", .list [
      .map [("type", .str "post"), ("title", .str "Hello WebP"),
            ("content", .str "Sample body"), ("status", .str "publish")]])]),
    ("security", .map [
      ("auth_key", .str "k1"), ("secure_auth_key", .str "k2"),
      ("logged_in_key", .str "k3"), ("nonce_key", .str "k4"),
      ("auth_salt", .str "s1"), ("secure_auth_salt", .str "s2"),
      ("logged_in_salt", .str "s3"), ("nonce_salt", .str "s4")]),
    ("config", .map [
      ("debug", .bool true), ("debug_log", .bool true), ("debug_display", .bool false),
      ("script_debug", .bool false), ("wp_memory_limit", .str "512M"),
      ("fs_method", .str "direct"), ("force_ssl_admin", .bool false)])]),
  ("infrastructure", .map [
    ("container_engine", .str "docker"),
    ("install_path", .str "/opt/webp-migrator"),
    ("ports", .map [
      ("http", .int 80), ("https", .int 443), ("mysql", .int 3306),
      ("alt_http", .int 8080), ("alt_https", .int 8443), ("alt_mysql", .int 3307),
      ("phpmyadmin", .int 8081), ("redis", .int 6379)])]),
  ("ssl", .map [("enabled", .bool false)]),
  ("services", .map [
    ("phpmyadmin", .map [("enabled", .bool true), ("upload_limit", .str "256M")]),
    ("redis", .map [("enabled", .bool false), ("version", .str "7"), ("max_memory", .str "128mb")])]),
  ("networking", .map [
    ("custom_domain", .str "webp-test.local"),
    ("container_network", .str "webp-migrator-network"),
    ("network_driver", .str "bridge")]),
  ("php", .map [
    ("version", .str "8.2"),
    ("settings", .map [
      ("memory_limit", .str "512M"), ("max_execution_time", .int 300),
      ("upload_max_filesize", .str "128M"), ("post_max_size", .str "128M")])]),
  ("webserver", .map [("type", .str "apache")]),
  ("automation", .map [
    ("max_wait_time", .int 60),
    ("wait_for_services", .bool true), ("auto_install_wordpress", .bool true),
    ("auto_activate_plugins", .bool true), ("auto_create_content", .bool false),
    ("post_install", .list [.str "flush_rewrite_rules", .str "set_permissions"])]),
  ("plugins", .map [
    ("webp_migrator", .map [("dev_mode", .bool true), ("log_level", .str "debug")]),
    ("install", .list [
      .map [("source", .str "local"), ("slug", .str "webp-safe-migrator")],
      .map [("source", .str "wordpress_org"), ("slug", .str "query-monitor"),
            ("activate", .bool true)]])])]

/-- The example configuration tree. -/
def exampleConfig : Yaml := .map exampleConfigKvs

/-- `exampleConfig` with a non-default configured HTTP port 8080 and
alternate 8081 (the spec's second port example). -/
def portExampleB : Yaml :=
  (exampleConfig.setPath ["infrastructure", "ports", "http"] (.int 8080)).setPath
    ["infrastructure", "ports", "alt_http"] (.int 8081)

/-- The compose values extracted from `exampleConfig`. -/
def exampleDcVals : DcVals := (extractDc exampleConfig).toOption.getD default

/-- The compose values extracted from `portExampleB`. -/
def portExampleBVals : DcVals := (extractDc portExampleB).toOption.getD default

section ClaimC2

/-- Claim C2: for each of the HTTP/HTTPS/database port kinds, the port
rendered in the manifest is the alternate port when the configured port
equals the service's well-known default (80/443/3306) and the alternate key
is present, and the configured port verbatim otherwise (non-default
configured port, or no alternate present).  The second part ties the rule
to the manifest text: the rendered compose file contains each effective
port in its port mapping.  The last two parts are the spec's concrete
examples: configured HTTP 80 with alternate 8080 renders `8080:80`, and
configured HTTP 8080 with alternate 8081 also renders `8080:80`. -/
theorem rendered_port_rule :
    (∀ (kvs : List (String × Yaml)) (key altKey : String) (dflt : Int) (alt p : Yaml),
      (alookup kvs key = some (.int dflt) → alookup kvs altKey = some alt →
        effectivePort (.map kvs) key altKey dflt = .ok alt) ∧
      (alookup kvs key = some p → (p == Yaml.int dflt) = false →
        effectivePort (.map kvs) key altKey dflt = .ok p) ∧
      (alookup kvs key = some (.int dflt) → alookup kvs altKey = none →
        effectivePort (.map kvs) key altKey dflt = .ok (.int dflt))) ∧
    (∀ cfg v, extractDc cfg = .ok v →
      generate_docker_compose cfg = .ok (renderDc v) ∧
      (∃ s, extractDcSections cfg = .ok s ∧
        effectivePort s.ports "http" "alt_http" 80 = .ok v.http_port ∧
        effectivePort s.ports "https" "alt_https" 443 = .ok v.https_port ∧
        effectivePort s.ports "mysql" "alt_mysql" 3306 = .ok v.mysql_port) ∧
      strContains (renderDc v) ("\"" ++ Yaml.pyStr v.http_port ++ ":80\"") = true ∧
      strContains (renderDc v) ("\"" ++ Yaml.pyStr v.https_port ++ ":443\"") = true ∧
      strContains (renderDc v) ("\"" ++ Yaml.pyStr v.mysql_port ++ ":3306\"") = true) ∧
    (extractDc exampleConfig = .ok exampleDcVals ∧
      exampleDcVals.http_port = .int 8080 ∧
      strContains (renderDc exampleDcVals) "\"8080:80\"" = true) ∧
    (extractDc portExampleB = .ok portExampleBVals ∧
      portExampleBVals.http_port = .int 8080 ∧
      strContains (renderDc portExampleBVals) "\"8080:80\"" = true) := by
  refine ⟨?_, ?_, ?_, ?_⟩
  · intro kvs key altKey dflt alt p
    exact ⟨fun h1 h2 => effectivePort_alt h1 h2,
           fun h1 h2 => effectivePort_nondefault h1 h2,
           fun h1 h2 => effectivePort_default_no_alt h1 h2⟩
  · intro cfg v hv
    have hgen : generate_docker_compose cfg = .ok (renderDc v) := by
      simp [generate_docker_compose, hv, Bind.bind, Except.bind, Pure.pure, Except.pure]
    refine ⟨hgen, ?_, renderDc_contains_ports v⟩
    rw [extractDc] at hv
    obtain ⟨s, hs, hv⟩ := except_bind_ok hv
    obtain ⟨hp, hhp, hv⟩ := except_bind_ok hv
    obtain ⟨hsp, hhsp, hv⟩ := except_bind_ok hv
    obtain ⟨mp, hmp, hv⟩ := except_bind_ok hv
    obtain ⟨b, hb, hv⟩ := except_bind_ok hv
    obtain ⟨pma, hpma, hv⟩ := except_bind_ok hv
    obtain ⟨rd, hrd, hv⟩ := except_bind_ok hv
    obtain ⟨nw, hnw, hv⟩ := except_bind_ok hv
    obtain ⟨nd, hnd, hv⟩ := except_bind_ok hv
    simp [Pure.pure, Except.pure] at hv
    subst hv
    exact ⟨s, hs, hhp, hhsp, hmp⟩
  · refine ⟨rfl, rfl, ?_⟩
    have h := (renderDc_contains_ports exampleDcVals).1
    simpa using h
  · refine ⟨rfl, rfl, ?_⟩
    have h := (renderDc_contains_ports portExampleBVals).1
    simpa using h

/-- Witness for C2 at concrete inputs: the three helper cases and the
manifest link at `exampleConfig`. -/
theorem rendered_port_rule_witness :
    effectivePort (.map [("http", Yaml.int 80), ("alt_http", Yaml.int 8080)])
      "http" "alt_http" 80 = .ok (.int 8080) ∧
    effectivePort (.map [("http", Yaml.int 8080), ("alt_http", Yaml.int 8081)])
      "http" "alt_http" 80 = .ok (.int 8080) ∧
    effectivePort (.map [("http", Yaml.int 80)]) "http" "alt_http" 80 = .ok (.int 80) ∧
    generate_docker_compose exampleConfig = .ok (renderDc exampleDcVals) := by
  refine ⟨?_, ?_, ?_, ?_⟩
  · exact (rendered_port_rule.1 _ "http" "alt_http" 80 (.int 8080) default).1 rfl rfl
  · exact (rendered_port_rule.1 _ "http" "alt_http" 80 default (.int 8080)).2.1 rfl (by decide)
  · exact (rendered_port_rule.1 _ "http" "alt_http" 80 default default).2.2 rfl rfl
  · exact (rendered_port_rule.2.1 exampleConfig exampleDcVals rfl).1

end ClaimC2

section ClaimC3

/-- `exampleConfig` with the admin-UI (phpMyAdmin) section omitted
entirely; everything else unchanged. -/
def noPmaConfig : Yaml := exampleConfig.setPath ["services"]
  (.map [("redis", .map [("enabled", .bool false), ("version", .str "7"),
    ("max_memory", .str "128mb")])])

/-- `exampleConfig` with the cache (Redis) section omitted entirely. -/
def noRedisConfig : Yaml := exampleConfig.setPath ["services"]
  (.map [("phpmyadmin", .map [("enabled", .bool true), ("upload_limit", .str "256M")])])

/-- Claim C3 (code bug): with the admin-UI section entirely absent the
generator decides to include the phpMyAdmin block
(`services_config.get('phpmyadmin', {}).get('enabled', True)` defaults to
enabled) but the block's template then dereferences
`services_config['phpmyadmin']['upload_limit']`, so generation raises
`KeyError: 'phpmyadmin'` instead of producing a manifest with the block —
contradicting both the spec and the default expressed by the code's own
`.get(..., True)`.  The cache half of the claim is honoured: with the Redis
section absent, generation succeeds and emits neither a `redis:` service
block nor a `redis_data` volume. -/
theorem admin_ui_default_enabled_crashes :
    generate_docker_compose noPmaConfig = .error (.keyError "phpmyadmin") ∧
    (extractDc noRedisConfig).map (fun v => v.redis) = .ok none ∧
    (∀ v : DcVals, v.redis = none →
      dcRedis v = "" ∧
      dcVolumes v =
        "\nvolumes:\n  wordpress_data:\n    driver: local\n  db_data:\n    driver: local\n") := by
  refine ⟨by rfl, by rfl, ?_⟩
  intro v hv
  constructor
  · simp [dcRedis, hv]
  · simp [dcVolumes, hv]

/-- Witness for the universally quantified part of the C3 theorem. -/
theorem admin_ui_default_enabled_crashes_witness :
    dcRedis (default : DcVals) = "" ∧
    dcVolumes (default : DcVals) =
      "\nvolumes:\n  wordpress_data:\n    driver: local\n  db_data:\n    driver: local\n" :=
  admin_ui_default_enabled_crashes.2.2 default rfl

end ClaimC3

section SubstLemmas

theorem chooseChars_length (src : RandSrc) (off : Nat) (alpha : List Char)
    (len : Nat) : (chooseChars src off alpha len).length = len := by
  simp [chooseChars]

theorem chooseChars_mem {src : RandSrc} {off : Nat} {alpha : List Char}
    {len : Nat} {c : Char} (halpha : 0 < alpha.length)
    (hc : c ∈ chooseChars src off alpha len) : c ∈ alpha := by
  simp only [chooseChars, List.mem_map, List.mem_range] at hc
  obtain ⟨i, _, rfl⟩ := hc
  rw [List.getD_eq_getElem _ _ (Nat.mod_lt _ halpha)]
  exact List.getElem_mem _

theorem generate_wp_salt_length (src : RandSrc) (off : Nat) :
    (_generate_wp_salt src off).length = 64 := by
  simp [_generate_wp_salt, String.length, chooseChars]

theorem generate_wp_salt_mem {src : RandSrc} {off : Nat} {c : Char}
    (hc : c ∈ (_generate_wp_salt src off).data) : c ∈ salt_alphabet :=
  chooseChars_mem (by decide) hc

theorem generate_random_password_length (src : RandSrc) (off : Nat) :
    (_generate_random_password src off).length = 16 := by
  simp [_generate_random_password, String.length, chooseChars]

theorem generate_random_password_mem {src : RandSrc} {off : Nat} {c : Char}
    (hc : c ∈ (_generate_random_password src off).data) : c ∈ password_alphabet :=
  chooseChars_mem (by decide) hc

theorem truthy_generated_salt (src : RandSrc) (off : Nat) :
    Yaml.truthy (.str (_generate_wp_salt src off)) = true := by
  have h := chooseChars_length src off salt_alphabet 64
  cases hcc : chooseChars src off salt_alphabet 64 with
  | nil => rw [hcc] at h; simp at h
  | cons a l => simp [Yaml.truthy, _generate_wp_salt, hcc]

/-- A key not in the iteration list is untouched by the salt loop. -/
theorem alookup_substSalts_not_mem {src : RandSrc} :
    ∀ (keys : List String) (i : Nat) (sec : List (String × Yaml)) (key : String),
      key ∉ keys → alookup (substSalts src i keys sec) key = alookup sec key := by
  intro keys
  induction keys with
  | nil => intro i sec key _; rfl
  | cons k ks ih =>
      intro i sec key hk
      rw [List.mem_cons, not_or] at hk
      rw [substSalts, ih _ _ _ hk.2]
      by_cases hc : Yaml.truthy ((alookup sec k).getD .null) = true
      · rw [if_pos hc]
      · rw [if_neg hc, alookup_dictSet_ne _ _ hk.1]

/-- A key in the (duplicate-free) iteration list keeps its value when it is
truthy and otherwise receives a freshly generated salt. -/
theorem alookup_substSalts_mem {src : RandSrc} :
    ∀ (keys : List String) (i : Nat) (sec : List (String × Yaml)) (key : String),
      keys.Nodup → key ∈ keys →
      (Yaml.truthy ((alookup sec key).getD .null) = true →
        alookup (substSalts src i keys sec) key = alookup sec key) ∧
      (Yaml.truthy ((alookup sec key).getD .null) = false →
        ∃ j, alookup (substSalts src i keys sec) key =
          some (.str (_generate_wp_salt src (64 * (i + j))))) := by
  intro keys
  induction keys with
  | nil => intro i sec key _ hmem; simp at hmem
  | cons k ks ih =>
      intro i sec key hnd hmem
      have hnd' := hnd
      rw [List.nodup_cons] at hnd'
      rcases List.mem_cons.mp hmem with rfl | hmem'
      · constructor
        · intro ht
          rw [substSalts, if_pos ht, alookup_substSalts_not_mem _ _ _ _ hnd'.1]
        · intro hf
          rw [substSalts, if_neg (by simp [hf]),
            alookup_substSalts_not_mem _ _ _ _ hnd'.1, alookup_dictSet_self]
          exact ⟨0, rfl⟩
      · have hne : key ≠ k := fun hh => hnd'.1 (hh ▸ hmem')
        have hstep : alookup (if Yaml.truthy ((alookup sec k).getD .null) = true
            then sec else dictSet sec k (.str (_generate_wp_salt src (64 * i)))) key =
            alookup sec key := by
          by_cases hc : Yaml.truthy ((alookup sec k).getD .null) = true
          · rw [if_pos hc]
          · rw [if_neg hc, alookup_dictSet_ne _ _ hne]
        have := ih (i + 1)
          (if Yaml.truthy ((alookup sec k).getD .null) = true then sec
           else dictSet sec k (.str (_generate_wp_salt src (64 * i))))
          key hnd'.2 hmem'
        rw [hstep] at this
        constructor
        · intro ht
          rw [substSalts]
          exact this.1 ht
        · intro hf
          obtain ⟨j, hj⟩ := this.2 hf
          refine ⟨j + 1, ?_⟩
          rw [substSalts, hj, show (i + 1) + j = i + (j + 1) by omega]

/-- When every salt key is already truthy the salt loop is the identity. -/
theorem substSalts_id {src : RandSrc} :
    ∀ (keys : List String) (i : Nat) (sec : List (String × Yaml)),
      (∀ k ∈ keys, Yaml.truthy ((alookup sec k).getD .null) = true) →
      substSalts src i keys sec = sec := by
  intro keys
  induction keys with
  | nil => intro i sec _; rfl
  | cons k ks ih =>
      intro i sec hall
      rw [substSalts, if_pos (hall k (by simp))]
      exact ih _ _ (fun k' hk' => hall k' (by simp [hk']))

theorem getPath_setPath_ne_head {cfg : Yaml} {a b : String} (h : b ≠ a)
    (p q : List String) (v : Yaml) :
    Yaml.getPath (Yaml.setPath cfg (a :: p) v) (b :: q) =
      Yaml.getPath cfg (b :: q) := by
  cases cfg with
  | map kvs =>
      simp only [Yaml.setPath, Yaml.getPath]
      rw [alookup_dictSet_ne _ _ h]
  | str s => rfl
  | int n => rfl
  | bool b => rfl
  | null => rfl
  | list xs => rfl

theorem getPath_setPath_ne_second {cfg : Yaml} {a b b' : String} (h : b' ≠ b)
    (p q : List String) (v : Yaml) :
    Yaml.getPath (Yaml.setPath cfg (a :: b :: p) v) (a :: b' :: q) =
      Yaml.getPath cfg (a :: b' :: q) := by
  cases cfg with
  | map kvs =>
      simp only [Yaml.setPath, Yaml.getPath, alookup_dictSet_self]
      cases hx : alookup kvs a with
      | some o => simpa [hx] using getPath_setPath_ne_head h p q v
      | none => simp [hx, Yaml.setPath, Yaml.getPath]
  | str s => rfl
  | int n => rfl
  | bool b => rfl
  | null => rfl
  | list xs => rfl

theorem getPath_ite_write {c : Prop} [Decidable c] {cfg v : Yaml}
    {path q : List String}
    (hdiv : Yaml.getPath (Yaml.setPath cfg path v) q = Yaml.getPath cfg q) :
    Yaml.getPath (if c then Yaml.setPath cfg path v else cfg) q =
      Yaml.getPath cfg q := by
  by_cases hc : c <;> simp [hc, hdiv]

theorem getPath_setPath3_self {cfg : Yaml} {a b c : String}
    {m2 : List (String × Yaml)}
    (h12 : Yaml.getPath cfg [a, b] = some (.map m2)) (v : Yaml) :
    Yaml.getPath (Yaml.setPath cfg [a, b, c] v) [a, b, c] = some v := by
  cases cfg with
  | map kvs =>
      simp only [Yaml.getPath] at h12
      cases hx : alookup kvs a with
      | none => rw [hx] at h12; simp at h12
      | some y1 =>
          rw [hx] at h12
          cases y1 with
          | map m1 =>
              simp only [Yaml.getPath] at h12
              cases hy : alookup m1 b with
              | none => rw [hy] at h12; simp at h12
              | some y2 =>
                  rw [hy] at h12
                  simp only [Yaml.getPath] at h12
                  obtain rfl : y2 = Yaml.map m2 := by simpa using h12
                  simp [Yaml.setPath, Yaml.getPath, hx, hy,
                    alookup_dictSet_self]
          | str s => simp [Yaml.getPath] at h12
          | int n => simp [Yaml.getPath] at h12
          | bool bb => simp [Yaml.getPath] at h12
          | null => simp [Yaml.getPath] at h12
          | list xs => simp [Yaml.getPath] at h12
  | str s => simp [Yaml.getPath] at h12
  | int n => simp [Yaml.getPath] at h12
  | bool b => simp [Yaml.getPath] at h12
  | null => simp [Yaml.getPath] at h12
  | list xs => simp [Yaml.getPath] at h12

/-- `substPassword` characterized: with the three-key read chain resolving
to a string, the step succeeds and regenerates the field iff its lowered
value contains `auto`. -/
theorem substPassword_spec {src : RandSrc} {off : Nat} {k1 k2 k3 : String}
    {cfg : Yaml} {m2 : List (String × Yaml)} {pw : String}
    (h12 : Yaml.getPath cfg [k1, k2] = some (.map m2))
    (h3 : alookup m2 k3 = some (.str pw)) :
    substPassword src off k1 k2 k3 cfg = .ok
      (if strContains (Yaml.pyLower pw) "auto" = true then
        Yaml.setPath cfg [k1, k2, k3] (.str (_generate_random_password src off))
      else cfg) := by
  cases cfg with
  | map kvs =>
      simp only [Yaml.getPath] at h12
      cases hx : alookup kvs k1 with
      | none => rw [hx] at h12; simp at h12
      | some y1 =>
          rw [hx] at h12
          cases y1 with
          | map m1 =>
              simp only [Yaml.getPath] at h12
              cases hy : alookup m1 k2 with
              | none => rw [hy] at h12; simp at h12
              | some y2 =>
                  rw [hy] at h12
                  simp only [Yaml.getPath] at h12
                  obtain rfl : y2 = Yaml.map m2 := by simpa using h12
                  by_cases hc : strContains (Yaml.pyLower pw) "auto" = true <;>
                    simp [substPassword, Yaml.getItem, hx, hy, h3, Yaml.asLowerStr,
                      Bind.bind, Except.bind, Pure.pure, Except.pure, hc]
          | str s => simp [Yaml.getPath] at h12
          | int n => simp [Yaml.getPath] at h12
          | bool bb => simp [Yaml.getPath] at h12
          | null => simp [Yaml.getPath] at h12
          | list xs => simp [Yaml.getPath] at h12
  | str s => simp [Yaml.getPath] at h12
  | int n => simp [Yaml.getPath] at h12
  | bool b => simp [Yaml.getPath] at h12
  | null => simp [Yaml.getPath] at h12
  | list xs => simp [Yaml.getPath] at h12

/-- Master characterization of `_substitute_auto_values` on a well-shaped
tree: it succeeds, the security section becomes exactly the salt-loop
result, each of the three password fields is regenerated iff its lowered
value contains `auto`, and when nothing needs regenerating the result is
the security write-back alone (in particular independent of the random
stream). -/
theorem subst_auto_master (src : RandSrc)
    {kvs wkvs sec dkvs rkvs ukvs akvs : List (String × Yaml)} {rp wpp ap : String}
    (hwp : alookup kvs "wordpress" = some (.map wkvs))
    (hsec : alookup wkvs "security" = some (.map sec))
    (hdb : alookup kvs "database" = some (.map dkvs))
    (hroot : alookup dkvs "root_user" = some (.map rkvs))
    (hrp : alookup rkvs "password" = some (.str rp))
    (hwpu : alookup dkvs "wordpress_user" = some (.map ukvs))
    (hwppw : alookup ukvs "password" = some (.str wpp))
    (hadm : alookup wkvs "admin_user" = some (.map akvs))
    (hap : alookup akvs "password" = some (.str ap)) :
    ∃ cfg', _substitute_auto_values src (.map kvs) = .ok cfg' ∧
      (∀ key, Yaml.getPath cfg' ["wordpress", "security", key] =
        alookup (substSalts src 0 salt_keys sec) key) ∧
      Yaml.getPath cfg' ["database", "root_user", "password"] =
        some (if strContains (Yaml.pyLower rp) "auto" = true
          then .str (_generate_random_password src rootPwOff) else .str rp) ∧
      Yaml.getPath cfg' ["database", "wordpress_user", "password"] =
        some (if strContains (Yaml.pyLower wpp) "auto" = true
          then .str (_generate_random_password src wpPwOff) else .str wpp) ∧
      Yaml.getPath cfg' ["wordpress", "admin_user", "password"] =
        some (if strContains (Yaml.pyLower ap) "auto" = true
          then .str (_generate_random_password src adminPwOff) else .str ap) ∧
      (strContains (Yaml.pyLower rp) "auto" = false →
       strContains (Yaml.pyLower wpp) "auto" = false →
       strContains (Yaml.pyLower ap) "auto" = false →
       (∀ k ∈ salt_keys, Yaml.truthy ((alookup sec k).getD .null) = true) →
       cfg' = Yaml.setPath (.map kvs) ["wordpress", "security"] (.map sec)) := by
  set kvs1 := dictSet kvs "wordpress"
    (.map (dictSet wkvs "security" (.map (substSalts src 0 salt_keys sec)))) with hkvs1
  have hcfg1 : Yaml.setPath (.map kvs) ["wordpress", "security"]
      (.map (substSalts src 0 salt_keys sec)) = .map kvs1 := by
    simp [Yaml.setPath, hwp, hkvs1]
  have l1 : alookup kvs1 "database" = some (.map dkvs) := by
    rw [hkvs1, alookup_dictSet_ne _ _ (by decide)]
    exact hdb
  have l2 : alookup kvs1 "wordpress" =
      some (.map (dictSet wkvs "security" (.map (substSalts src 0 salt_keys sec)))) := by
    rw [hkvs1, alookup_dictSet_self]
  have hA1 : Yaml.getPath (.map kvs1) ["database", "root_user"] = some (.map rkvs) := by
    simp [Yaml.getPath, l1, hroot]
  have hB1 : Yaml.getPath (.map kvs1) ["database", "wordpress_user"] = some (.map ukvs) := by
    simp [Yaml.getPath, l1, hwpu]
  have hC1 : Yaml.getPath (.map kvs1) ["wordpress", "admin_user"] = some (.map akvs) := by
    simp [Yaml.getPath, l2, alookup_dictSet_ne _ _ (show "admin_user" ≠ "security" by decide), hadm]
  have hD1 : ∀ key, Yaml.getPath (.map kvs1) ["wordpress", "security", key] =
      alookup (substSalts src 0 salt_keys sec) key := by
    intro key
    simp only [Yaml.getPath, l2, alookup_dictSet_self]
    cases hk : alookup (substSalts src 0 salt_keys sec) key <;> simp [hk, Yaml.getPath]
  have hRootPw1 : Yaml.getPath (.map kvs1) ["database", "root_user", "password"] =
      some (.str rp) := by
    simp [Yaml.getPath, l1, hroot, hrp]
  have hWpPw1 : Yaml.getPath (.map kvs1) ["database", "wordpress_user", "password"] =
      some (.str wpp) := by
    simp [Yaml.getPath, l1, hwpu, hwppw]
  have hAdminPw1 : Yaml.getPath (.map kvs1) ["wordpress", "admin_user", "password"] =
      some (.str ap) := by
    simp [Yaml.getPath, l2, alookup_dictSet_ne _ _ (show "admin_user" ≠ "security" by decide),
      hadm, hap]
  have hstep2 := @substPassword_spec src rootPwOff _ _ _ _ _ _ hA1 hrp
  set cfg2 := if strContains (Yaml.pyLower rp) "auto" = true then
      Yaml.setPath (.map kvs1) ["database", "root_user", "password"]
        (.str (_generate_random_password src rootPwOff))
    else Yaml.map kvs1 with hcfg2
  have hB2 : Yaml.getPath cfg2 ["database", "wordpress_user"] = some (.map ukvs) := by
    rw [hcfg2, getPath_ite_write (getPath_setPath_ne_second (by decide) _ _ _)]
    exact hB1
  have hC2 : Yaml.getPath cfg2 ["wordpress", "admin_user"] = some (.map akvs) := by
    rw [hcfg2, getPath_ite_write (getPath_setPath_ne_head (by decide) _ _ _)]
    exact hC1
  have hD2 : ∀ key, Yaml.getPath cfg2 ["wordpress", "security", key] =
      alookup (substSalts src 0 salt_keys sec) key := by
    intro key
    rw [hcfg2, getPath_ite_write (getPath_setPath_ne_head (by decide) _ _ _)]
    exact hD1 key
  have hWpPw2 : Yaml.getPath cfg2 ["database", "wordpress_user", "password"] =
      some (.str wpp) := by
    rw [hcfg2, getPath_ite_write (getPath_setPath_ne_second (by decide) _ _ _)]
    exact hWpPw1
  have hAdminPw2 : Yaml.getPath cfg2 ["wordpress", "admin_user", "password"] =
      some (.str ap) := by
    rw [hcfg2, getPath_ite_write (getPath_setPath_ne_head (by decide) _ _ _)]
    exact hAdminPw1
  have hRootPw2 : Yaml.getPath cfg2 ["database", "root_user", "password"] =
      some (if strContains (Yaml.pyLower rp) "auto" = true
        then .str (_generate_random_password src rootPwOff) else .str rp) := by
    rw [hcfg2]
    by_cases hc : strContains (Yaml.pyLower rp) "auto" = true
    · rw [if_pos hc, if_pos hc]
      exact getPath_setPath3_self hA1 _
    · rw [if_neg hc, if_neg hc]
      exact hRootPw1
  have hstep3 := @substPassword_spec src wpPwOff _ _ _ _ _ _ hB2 hwppw
  set cfg3 := if strContains (Yaml.pyLower wpp) "auto" = true then
      Yaml.setPath cfg2 ["database", "wordpress_user", "password"]
        (.str (_generate_random_password src wpPwOff))
    else cfg2 with hcfg3
  have hC3 : Yaml.getPath cfg3 ["wordpress", "admin_user"] = some (.map akvs) := by
    rw [hcfg3, getPath_ite_write (getPath_setPath_ne_head (by decide) _ _ _)]
    exact hC2
  have hD3 : ∀ key, Yaml.getPath cfg3 ["wordpress", "security", key] =
      alookup (substSalts src 0 salt_keys sec) key := by
    intro key
    rw [hcfg3, getPath_ite_write (getPath_setPath_ne_head (by decide) _ _ _)]
    exact hD2 key
  have hRootPw3 : Yaml.getPath cfg3 ["database", "root_user", "password"] =
      some (if strContains (Yaml.pyLower rp) "auto" = true
        then .str (_generate_random_password src rootPwOff) else .str rp) := by
    rw [hcfg3, getPath_ite_write (getPath_setPath_ne_second (by decide) _ _ _)]
    exact hRootPw2
  have hAdminPw3 : Yaml.getPath cfg3 ["wordpress", "admin_user", "password"] =
      some (.str ap) := by
    rw [hcfg3, getPath_ite_write (getPath_setPath_ne_head (by decide) _ _ _)]
    exact hAdminPw2
  have hWpPw3 : Yaml.getPath cfg3 ["database", "wordpress_user", "password"] =
      some (if strContains (Yaml.pyLower wpp) "auto" = true
        then .str (_generate_random_password src wpPwOff) else .str wpp) := by
    rw [hcfg3]
    by_cases hc : strContains (Yaml.pyLower wpp) "auto" = true
    · rw [if_pos hc, if_pos hc]
      exact getPath_setPath3_self hB2 _
    · rw [if_neg hc, if_neg hc]
      exact hWpPw2
  have hstep4 := @substPassword_spec src adminPwOff _ _ _ _ _ _ hC3 hap
  set cfg4 := if strContains (Yaml.pyLower ap) "auto" = true then
      Yaml.setPath cfg3 ["wordpress", "admin_user", "password"]
        (.str (_generate_random_password src adminPwOff))
    else cfg3 with hcfg4
  have hD4 : ∀ key, Yaml.getPath cfg4 ["wordpress", "security", key] =
      alookup (substSalts src 0 salt_keys sec) key := by
    intro key
    rw [hcfg4, getPath_ite_write (getPath_setPath_ne_second (by decide) _ _ _)]
    exact hD3 key
  have hRootPw4 : Yaml.getPath cfg4 ["database", "root_user", "password"] =
      some (if strContains (Yaml.pyLower rp) "auto" = true
        then .str (_generate_random_password src rootPwOff) else .str rp) := by
    rw [hcfg4, getPath_ite_write (getPath_setPath_ne_head (by decide) _ _ _)]
    exact hRootPw3
  have hWpPw4 : Yaml.getPath cfg4 ["database", "wordpress_user", "password"] =
      some (if strContains (Yaml.pyLower wpp) "auto" = true
        then .str (_generate_random_password src wpPwOff) else .str wpp) := by
    rw [hcfg4, getPath_ite_write (getPath_setPath_ne_head (by decide) _ _ _)]
    exact hWpPw3
  have hAdminPw4 : Yaml.getPath cfg4 ["wordpress", "admin_user", "password"] =
      some (if strContains (Yaml.pyLower ap) "auto" = true
        then .str (_generate_random_password src adminPwOff) else .str ap) := by
    rw [hcfg4]
    by_cases hc : strContains (Yaml.pyLower ap) "auto" = true
    · rw [if_pos hc, if_pos hc]
      exact getPath_setPath3_self hC3 _
    · rw [if_neg hc, if_neg hc]
      exact hAdminPw3
  have hsubst : _substitute_auto_values src (.map kvs) = .ok cfg4 := by
    simp only [_substitute_auto_values, Bind.bind]
    rw [show Yaml.getItem (Yaml.map kvs) "wordpress" = Except.ok (Yaml.map wkvs) from by
      simp [Yaml.getItem, hwp]]
    simp only [Except.bind]
    rw [show Yaml.getItem (Yaml.map wkvs) "security" = Except.ok (Yaml.map sec) from by
      simp [Yaml.getItem, hsec]]
    simp only [Except.bind]
    rw [hcfg1, hstep2]
    simp only [Except.bind]
    rw [hstep3]
    simp only [Except.bind]
    exact hstep4
  refine ⟨cfg4, hsubst, hD4, hRootPw4, hWpPw4, hAdminPw4, ?_⟩
  intro h1 h2 h3 hsalts
  have hid : substSalts src 0 salt_keys sec = sec := substSalts_id _ _ _ hsalts
  rw [hcfg4, if_neg (by simp [h3]), hcfg3, if_neg (by simp [h2]), hcfg2,
    if_neg (by simp [h1]), hkvs1]
  rw [hid]
  simp [Yaml.setPath, hwp]

end SubstLemmas

section ClaimC1

/-- Claim C1: the secret substitutor assigns to each of the 8 salt fields
that is empty or absent a fresh 64-character string over the salt alphabet,
assigns to each of the 3 password fields whose lower-cased value contains
`auto` a fresh 16-character string over the password alphabet, and leaves
every other salt and password value exactly unchanged.  Salt fields are
assumed string-valued or null/absent (as they are in a YAML config); the
shape hypotheses mirror the dict accesses the Python code performs. -/
theorem secret_substitution_rule (src : RandSrc)
    {kvs wkvs sec dkvs rkvs ukvs akvs : List (String × Yaml)} {rp wpp ap : String}
    (hwp : alookup kvs "wordpress" = some (.map wkvs))
    (hsec : alookup wkvs "security" = some (.map sec))
    (hdb : alookup kvs "database" = some (.map dkvs))
    (hroot : alookup dkvs "root_user" = some (.map rkvs))
    (hrp : alookup rkvs "password" = some (.str rp))
    (hwpu : alookup dkvs "wordpress_user" = some (.map ukvs))
    (hwppw : alookup ukvs "password" = some (.str wpp))
    (hadm : alookup wkvs "admin_user" = some (.map akvs))
    (hap : alookup akvs "password" = some (.str ap)) :
    ∃ cfg', _substitute_auto_values src (.map kvs) = .ok cfg' ∧
      (∀ key ∈ salt_keys,
        ((alookup sec key = none ∨ alookup sec key = some .null ∨
            alookup sec key = some (.str "")) →
          ∃ s, Yaml.getPath cfg' ["wordpress", "security", key] = some (.str s) ∧
            s.length = 64 ∧ ∀ c ∈ s.data, c ∈ salt_alphabet) ∧
        (∀ s, alookup sec key = some (.str s) → s ≠ "" →
          Yaml.getPath cfg' ["wordpress", "security", key] = some (.str s))) ∧
      ((strContains (Yaml.pyLower rp) "auto" = true →
        ∃ s, Yaml.getPath cfg' ["database", "root_user", "password"] = some (.str s) ∧
          s.length = 16 ∧ ∀ c ∈ s.data, c ∈ password_alphabet) ∧
       (strContains (Yaml.pyLower rp) "auto" = false →
        Yaml.getPath cfg' ["database", "root_user", "password"] = some (.str rp))) ∧
      ((strContains (Yaml.pyLower wpp) "auto" = true →
        ∃ s, Yaml.getPath cfg' ["database", "wordpress_user", "password"] = some (.str s) ∧
          s.length = 16 ∧ ∀ c ∈ s.data, c ∈ password_alphabet) ∧
       (strContains (Yaml.pyLower wpp) "auto" = false →
        Yaml.getPath cfg' ["database", "wordpress_user", "password"] = some (.str wpp))) ∧
      ((strContains (Yaml.pyLower ap) "auto" = true →
        ∃ s, Yaml.getPath cfg' ["wordpress", "admin_user", "password"] = some (.str s) ∧
          s.length = 16 ∧ ∀ c ∈ s.data, c ∈ password_alphabet) ∧
       (strContains (Yaml.pyLower ap) "auto" = false →
        Yaml.getPath cfg' ["wordpress", "admin_user", "password"] = some (.str ap))) := by
  obtain ⟨cfg', hs, hD, hR, hW, hA, _⟩ :=
    subst_auto_master src hwp hsec hdb hroot hrp hwpu hwppw hadm hap
  refine ⟨cfg', hs, ?_, ⟨?_, ?_⟩, ⟨?_, ?_⟩, ⟨?_, ?_⟩⟩
  · intro key hkey
    have hmem := @alookup_substSalts_mem src salt_keys 0 sec key (by decide) hkey
    constructor
    · intro hempty
      have hf : Yaml.truthy ((alookup sec key).getD .null) = false := by
        rcases hempty with h | h | h <;> rw [h] <;> rfl
      obtain ⟨j, hj⟩ := hmem.2 hf
      exact ⟨_, by rw [hD key, hj], generate_wp_salt_length _ _,
        fun c hc => generate_wp_salt_mem hc⟩
    · intro s hsome hne
      have hd : s.data ≠ [] := by
        intro h0
        apply hne
        cases s with
        | mk data =>
            have hdata : data = [] := h0
            rw [hdata]
      have ht : Yaml.truthy ((alookup sec key).getD .null) = true := by
        rw [hsome]
        simp [Yaml.truthy, List.isEmpty_iff, hd]
      rw [hD key, hmem.1 ht, hsome]
  · intro hauto
    exact ⟨_, by rw [hR, if_pos hauto], generate_random_password_length _ _,
      fun c hc => generate_random_password_mem hc⟩
  · intro hno
    rw [hR, if_neg (by simp [hno])]
  · intro hauto
    exact ⟨_, by rw [hW, if_pos hauto], generate_random_password_length _ _,
      fun c hc => generate_random_password_mem hc⟩
  · intro hno
    rw [hW, if_neg (by simp [hno])]
  · intro hauto
    exact ⟨_, by rw [hA, if_pos hauto], generate_random_password_length _ _,
      fun c hc => generate_random_password_mem hc⟩
  · intro hno
    rw [hA, if_neg (by simp [hno])]

/-- A small tree exercising every substitution case: one empty salt, one
absent salt, one kept salt, one `auto` password (root), one kept password
(wordpress user), one mixed-case `AUTO` password (admin). -/
def substExampleKvs : List (String × Yaml) := [
  ("wordpress", .map [
    ("security", .map [
      ("auth_key", .str ""), ("secure_auth_key", .str "KeepThisSalt"),
      ("logged_in_key", .null), ("nonce_key", .str "k4"),
      ("auth_salt", .str "s1"), ("secure_auth_salt", .str "s2"),
      ("logged_in_salt", .str "s3")]),
    ("admin_user", .map [("password", .str "topAUTOmatic")])]),
  ("database", .map [
    ("root_user", .map [("password", .str "auto")]),
    ("wordpress_user", .map [("password", .str "keep-pw")])])]

/-- Witness for C1 at `substExampleKvs` with the identity stream. -/
theorem secret_substitution_rule_witness :
    ∃ cfg', _substitute_auto_values (fun n => n) (.map substExampleKvs) = .ok cfg' ∧
      (∀ key ∈ salt_keys,
        ((alookup [("auth_key", Yaml.str ""), ("secure_auth_key", Yaml.str "KeepThisSalt"),
            ("logged_in_key", Yaml.null), ("nonce_key", Yaml.str "k4"),
            ("auth_salt", Yaml.str "s1"), ("secure_auth_salt", Yaml.str "s2"),
            ("logged_in_salt", Yaml.str "s3")] key = none ∨
          alookup [("auth_key", Yaml.str ""), ("secure_auth_key", Yaml.str "KeepThisSalt"),
            ("logged_in_key", Yaml.null), ("nonce_key", Yaml.str "k4"),
            ("auth_salt", Yaml.str "s1"), ("secure_auth_salt", Yaml.str "s2"),
            ("logged_in_salt", Yaml.str "s3")] key = some .null ∨
          alookup [("auth_key", Yaml.str ""), ("secure_auth_key", Yaml.str "KeepThisSalt"),
            ("logged_in_key", Yaml.null), ("nonce_key", Yaml.str "k4"),
            ("auth_salt", Yaml.str "s1"), ("secure_auth_salt", Yaml.str "s2"),
            ("logged_in_salt", Yaml.str "s3")] key = some (.str "")) →
          ∃ s, Yaml.getPath cfg' ["wordpress", "security", key] = some (.str s) ∧
            s.length = 64 ∧ ∀ c ∈ s.data, c ∈ salt_alphabet) ∧
        (∀ s, alookup [("auth_key", Yaml.str ""), ("secure_auth_key", Yaml.str "KeepThisSalt"),
            ("logged_in_key", Yaml.null), ("nonce_key", Yaml.str "k4"),
            ("auth_salt", Yaml.str "s1"), ("secure_auth_salt", Yaml.str "s2"),
            ("logged_in_salt", Yaml.str "s3")] key = some (.str s) → s ≠ "" →
          Yaml.getPath cfg' ["wordpress", "security", key] = some (.str s))) ∧
      ((strContains (Yaml.pyLower "auto") "auto" = true →
        ∃ s, Yaml.getPath cfg' ["database", "root_user", "password"] = some (.str s) ∧
          s.length = 16 ∧ ∀ c ∈ s.data, c ∈ password_alphabet) ∧
       (strContains (Yaml.pyLower "auto") "auto" = false →
        Yaml.getPath cfg' ["database", "root_user", "password"] = some (.str "auto"))) ∧
      ((strContains (Yaml.pyLower "keep-pw") "auto" = true →
        ∃ s, Yaml.getPath cfg' ["database", "wordpress_user", "password"] = some (.str s) ∧
          s.length = 16 ∧ ∀ c ∈ s.data, c ∈ password_alphabet) ∧
       (strContains (Yaml.pyLower "keep-pw") "auto" = false →
        Yaml.getPath cfg' ["database", "wordpress_user", "password"] = some (.str "keep-pw"))) ∧
      ((strContains (Yaml.pyLower "topAUTOmatic") "auto" = true →
        ∃ s, Yaml.getPath cfg' ["wordpress", "admin_user", "password"] = some (.str s) ∧
          s.length = 16 ∧ ∀ c ∈ s.data, c ∈ password_alphabet) ∧
       (strContains (Yaml.pyLower "topAUTOmatic") "auto" = false →
        Yaml.getPath cfg' ["wordpress", "admin_user", "password"] = some (.str "topAUTOmatic"))) :=
  secret_substitution_rule (fun n => n) rfl rfl rfl rfl rfl rfl rfl rfl rfl

end ClaimC1

section ClaimC4

/-- A draw stream that spells `a`,`u`,`t`,`o` cyclically: indices 0, 20,
19, 14 of the password alphabet. -/
def badSrc : RandSrc := fun n => [0, 20, 19, 14].getD (n % 4) 0

/-- Counterexample to claim C4 as stated: there is a draw of the random
source for which the substitutor assigns, to a password field containing
`auto`, the 16-character value `autoautoautoauto` — which itself contains
the substring `auto`.  (The password alphabet contains `a`, `u`, `t`, `o`
and the code never re-checks the generated value.) -/
theorem password_no_auto_counterexample :
    Yaml.getPath ((_substitute_auto_values badSrc (.map substExampleKvs)).toOption.getD .null)
      ["database", "root_user", "password"] = some (.str "autoautoautoauto") ∧
    strContains (Yaml.pyLower "auto") "auto" = true ∧
    strContains (Yaml.pyLower "autoautoautoauto") "auto" = true :=
  ⟨by rfl, by decide, by decide⟩

/-- Claim C4 as amended: for every password field whose lowered value
contains `auto` and every draw of the random source, the assigned value has
exactly 16 characters from the password alphabet (the original claim's
final conjunct — that the assigned value never itself contains `auto` — is
false, see the counterexample). -/
theorem password_marker_rule_amended :
    (∀ (src : RandSrc) (off : Nat),
      (_generate_random_password src off).length = 16 ∧
      ∀ c ∈ (_generate_random_password src off).data, c ∈ password_alphabet) ∧
    (∀ (src : RandSrc) (off : Nat) (k1 k2 k3 : String) (cfg : Yaml)
      (m2 : List (String × Yaml)) (pw : String),
      Yaml.getPath cfg [k1, k2] = some (.map m2) →
      alookup m2 k3 = some (.str pw) →
      strContains (Yaml.pyLower pw) "auto" = true →
      ∃ s, substPassword src off k1 k2 k3 cfg =
          .ok (cfg.setPath [k1, k2, k3] (.str s)) ∧
        s.length = 16 ∧ ∀ c ∈ s.data, c ∈ password_alphabet) := by
  constructor
  · intro src off
    exact ⟨generate_random_password_length _ _, fun c hc => generate_random_password_mem hc⟩
  · intro src off k1 k2 k3 cfg m2 pw h12 h3 hauto
    refine ⟨_, ?_, generate_random_password_length src off,
      fun c hc => generate_random_password_mem hc⟩
    rw [substPassword_spec h12 h3, if_pos hauto]

/-- Witness for C4's amended theorem at a concrete `auto` password. -/
theorem password_marker_rule_amended_witness :
    ((_generate_random_password (fun _ => 0) 0).length = 16 ∧
      ∀ c ∈ (_generate_random_password (fun _ => 0) 0).data, c ∈ password_alphabet) ∧
    (∃ s, substPassword (fun _ => 0) rootPwOff "database" "root_user" "password"
        (.map [("database", .map [("root_user", .map [("password", .str "auto")])])]) =
        .ok ((Yaml.map [("database", .map [("root_user", .map [("password", .str "auto")])])]).setPath
          ["database", "root_user", "password"] (.str s)) ∧
      s.length = 16 ∧ ∀ c ∈ s.data, c ∈ password_alphabet) :=
  ⟨password_marker_rule_amended.1 (fun _ => 0) 0,
   password_marker_rule_amended.2 (fun _ => 0) rootPwOff "database" "root_user" "password"
     _ _ "auto" rfl rfl (by decide)⟩

end ClaimC4

section ClaimC5

/-- A tree whose salt field is pre-populated with the 1-character string
`x` and whose root password is the empty string (neither contains `auto`,
the salt is truthy). -/
def c5Kvs : List (String × Yaml) := [
  ("wordpress", .map [
    ("security", .map [("auth_key", .str "x")]),
    ("admin_user", .map [("password", .str "adm1")])]),
  ("database", .map [
    ("root_user", .map [("password", .str "")]),
    ("wordpress_user", .map [("password", .str "wp1")])])]

/-- Counterexample to claim C5 as stated: after substitution the
pre-populated salt `x` is still exactly `x` (1 character, not 64), and the
root password is still the empty string (empty, not 16 characters): the
claimed invariant "all secret fields non-empty and meeting their
length/alphabet constraints" fails for pre-populated fields. -/
theorem substitution_invariant_counterexample :
    Yaml.getPath ((_substitute_auto_values (fun _ => 0) (.map c5Kvs)).toOption.getD .null)
      ["wordpress", "security", "auth_key"] = some (.str "x") ∧
    "x".length = 1 ∧
    Yaml.getPath ((_substitute_auto_values (fun _ => 0) (.map c5Kvs)).toOption.getD .null)
      ["database", "root_user", "password"] = some (.str "") ∧
    "".length = 0 :=
  ⟨by rfl, by decide, by rfl, by decide⟩

/-- Claim C5 as amended: after substitution every salt field holds a truthy
(non-empty) value; a salt that was empty/absent now meets the 64-character
salt-alphabet constraint, while a pre-populated (truthy) salt keeps its
original value verbatim, whatever its length; a password containing `auto`
is replaced by a 16-character password-alphabet string, while any other
password — including an empty one — is kept verbatim. -/
theorem substitution_invariant_amended (src : RandSrc)
    {kvs wkvs sec dkvs rkvs ukvs akvs : List (String × Yaml)} {rp wpp ap : String}
    (hwp : alookup kvs "wordpress" = some (.map wkvs))
    (hsec : alookup wkvs "security" = some (.map sec))
    (hdb : alookup kvs "database" = some (.map dkvs))
    (hroot : alookup dkvs "root_user" = some (.map rkvs))
    (hrp : alookup rkvs "password" = some (.str rp))
    (hwpu : alookup dkvs "wordpress_user" = some (.map ukvs))
    (hwppw : alookup ukvs "password" = some (.str wpp))
    (hadm : alookup wkvs "admin_user" = some (.map akvs))
    (hap : alookup akvs "password" = some (.str ap)) :
    ∃ cfg', _substitute_auto_values src (.map kvs) = .ok cfg' ∧
      (∀ key ∈ salt_keys, ∃ v,
        Yaml.getPath cfg' ["wordpress", "security", key] = some v ∧
        Yaml.truthy v = true ∧
        (Yaml.truthy ((alookup sec key).getD .null) = false →
          ∃ s, v = .str s ∧ s.length = 64 ∧ ∀ c ∈ s.data, c ∈ salt_alphabet) ∧
        (Yaml.truthy ((alookup sec key).getD .null) = true →
          alookup sec key = some v)) ∧
      ((strContains (Yaml.pyLower rp) "auto" = true →
        ∃ s, Yaml.getPath cfg' ["database", "root_user", "password"] = some (.str s) ∧
          s.length = 16 ∧ ∀ c ∈ s.data, c ∈ password_alphabet) ∧
       (strContains (Yaml.pyLower rp) "auto" = false →
        Yaml.getPath cfg' ["database", "root_user", "password"] = some (.str rp))) ∧
      ((strContains (Yaml.pyLower wpp) "auto" = true →
        ∃ s, Yaml.getPath cfg' ["database", "wordpress_user", "password"] = some (.str s) ∧
          s.length = 16 ∧ ∀ c ∈ s.data, c ∈ password_alphabet) ∧
       (strContains (Yaml.pyLower wpp) "auto" = false →
        Yaml.getPath cfg' ["database", "wordpress_user", "password"] = some (.str wpp))) ∧
      ((strContains (Yaml.pyLower ap) "auto" = true →
        ∃ s, Yaml.getPath cfg' ["wordpress", "admin_user", "password"] = some (.str s) ∧
          s.length = 16 ∧ ∀ c ∈ s.data, c ∈ password_alphabet) ∧
       (strContains (Yaml.pyLower ap) "auto" = false →
        Yaml.getPath cfg' ["wordpress", "admin_user", "password"] = some (.str ap))) := by
  obtain ⟨cfg', hs, hD, hR, hW, hA, _⟩ :=
    subst_auto_master src hwp hsec hdb hroot hrp hwpu hwppw hadm hap
  refine ⟨cfg', hs, ?_, ⟨?_, ?_⟩, ⟨?_, ?_⟩, ⟨?_, ?_⟩⟩
  · intro key hkey
    have hmem := @alookup_substSalts_mem src salt_keys 0 sec key (by decide) hkey
    by_cases ht : Yaml.truthy ((alookup sec key).getD .null) = true
    · cases hlk : alookup sec key with
      | none => rw [hlk] at ht; simp [Yaml.truthy] at ht
      | some v0 =>
          refine ⟨v0, ?_, ?_,
            fun hf => by rw [hlk] at ht; exact absurd (ht.symm.trans hf) (by decide),
            fun _ => rfl⟩
          · rw [hD key, hmem.1 ht, hlk]
          · rw [hlk] at ht
            simpa using ht
    · have hf : Yaml.truthy ((alookup sec key).getD .null) = false := by
        simpa using ht
      obtain ⟨j, hj⟩ := hmem.2 hf
      refine ⟨.str (_generate_wp_salt src (64 * (0 + j))), ?_, ?_, ?_, ?_⟩
      · rw [hD key, hj]
      · exact truthy_generated_salt _ _
      · intro _
        exact ⟨_, rfl, generate_wp_salt_length _ _, fun c hc => generate_wp_salt_mem hc⟩
      · intro hcontra
        rw [hcontra] at hf
        simp at hf
  · intro hauto
    exact ⟨_, by rw [hR, if_pos hauto], generate_random_password_length _ _,
      fun c hc => generate_random_password_mem hc⟩
  · intro hno
    rw [hR, if_neg (by simp [hno])]
  · intro hauto
    exact ⟨_, by rw [hW, if_pos hauto], generate_random_password_length _ _,
      fun c hc => generate_random_password_mem hc⟩
  · intro hno
    rw [hW, if_neg (by simp [hno])]
  · intro hauto
    exact ⟨_, by rw [hA, if_pos hauto], generate_random_password_length _ _,
      fun c hc => generate_random_password_mem hc⟩
  · intro hno
    rw [hA, if_neg (by simp [hno])]

/-- Witness for C5's amended theorem at `c5Kvs`. -/
theorem substitution_invariant_amended_witness :
    ∃ cfg', _substitute_auto_values (fun n => n) (.map c5Kvs) = .ok cfg' ∧
      (∀ key ∈ salt_keys, ∃ v,
        Yaml.getPath cfg' ["wordpress", "security", key] = some v ∧
        Yaml.truthy v = true ∧
        (Yaml.truthy ((alookup [("auth_key", Yaml.str "x")] key).getD .null) = false →
          ∃ s, v = .str s ∧ s.length = 64 ∧ ∀ c ∈ s.data, c ∈ salt_alphabet) ∧
        (Yaml.truthy ((alookup [("auth_key", Yaml.str "x")] key).getD .null) = true →
          alookup [("auth_key", Yaml.str "x")] key = some v)) ∧
      ((strContains (Yaml.pyLower "") "auto" = true →
        ∃ s, Yaml.getPath cfg' ["database", "root_user", "password"] = some (.str s) ∧
          s.length = 16 ∧ ∀ c ∈ s.data, c ∈ password_alphabet) ∧
       (strContains (Yaml.pyLower "") "auto" = false →
        Yaml.getPath cfg' ["database", "root_user", "password"] = some (.str ""))) ∧
      ((strContains (Yaml.pyLower "wp1") "auto" = true →
        ∃ s, Yaml.getPath cfg' ["database", "wordpress_user", "password"] = some (.str s) ∧
          s.length = 16 ∧ ∀ c ∈ s.data, c ∈ password_alphabet) ∧
       (strContains (Yaml.pyLower "wp1") "auto" = false →
        Yaml.getPath cfg' ["database", "wordpress_user", "password"] = some (.str "wp1"))) ∧
      ((strContains (Yaml.pyLower "adm1") "auto" = true →
        ∃ s, Yaml.getPath cfg' ["wordpress", "admin_user", "password"] = some (.str s) ∧
          s.length = 16 ∧ ∀ c ∈ s.data, c ∈ password_alphabet) ∧
       (strContains (Yaml.pyLower "adm1") "auto" = false →
        Yaml.getPath cfg' ["wordpress", "admin_user", "password"] = some (.str "adm1"))) :=
  substitution_invariant_amended (fun n => n) rfl rfl rfl rfl rfl rfl rfl rfl rfl

end ClaimC5

section ClaimC6

/-- First run on `substExampleKvs` with the adversarial stream: the root
password `auto` is regenerated as `autoautoautoauto`. -/
def run1C6 : Yaml :=
  (_substitute_auto_values badSrc (.map substExampleKvs)).toOption.getD .null

/-- Second run on the first run's output, with the constant-zero stream. -/
def run2C6 : Yaml :=
  (_substitute_auto_values (fun _ => 0) run1C6).toOption.getD .null

/-- Counterexample to claim C6 as stated: there is a config tree and a draw
of the first run after which the second substitution run changes the root
password again (the first run produced `autoautoautoauto`, which still
contains `auto`, so the second run regenerates it). -/
theorem second_pass_counterexample :
    Yaml.getPath run1C6 ["database", "root_user", "password"] =
      some (.str "autoautoautoauto") ∧
    Yaml.getPath run2C6 ["database", "root_user", "password"] =
      some (.str "aaaaaaaaaaaaaaaa") ∧
    ¬(Yaml.str "autoautoautoauto" = Yaml.str "aaaaaaaaaaaaaaaa") :=
  ⟨by rfl, by rfl, by simp⟩

/-- Claim C6 as amended: on an already-substituted tree — all 8 salt fields
truthy and none of the 3 password values containing `auto` (which holds for
every first-run output except the negligible draws in which a regenerated
password itself spells `auto`, see the counterexample) — a further
substitution run leaves every salt and password field unchanged. -/
theorem second_pass_identity_amended (src : RandSrc)
    {kvs wkvs sec dkvs rkvs ukvs akvs : List (String × Yaml)} {rp wpp ap : String}
    (hwp : alookup kvs "wordpress" = some (.map wkvs))
    (hsec : alookup wkvs "security" = some (.map sec))
    (hdb : alookup kvs "database" = some (.map dkvs))
    (hroot : alookup dkvs "root_user" = some (.map rkvs))
    (hrp : alookup rkvs "password" = some (.str rp))
    (hwpu : alookup dkvs "wordpress_user" = some (.map ukvs))
    (hwppw : alookup ukvs "password" = some (.str wpp))
    (hadm : alookup wkvs "admin_user" = some (.map akvs))
    (hap : alookup akvs "password" = some (.str ap))
    (hsalts : ∀ k ∈ salt_keys, Yaml.truthy ((alookup sec k).getD .null) = true)
    (h1 : strContains (Yaml.pyLower rp) "auto" = false)
    (h2 : strContains (Yaml.pyLower wpp) "auto" = false)
    (h3 : strContains (Yaml.pyLower ap) "auto" = false) :
    ∃ cfg', _substitute_auto_values src (.map kvs) = .ok cfg' ∧
      (∀ key, Yaml.getPath cfg' ["wordpress", "security", key] = alookup sec key) ∧
      Yaml.getPath cfg' ["database", "root_user", "password"] = some (.str rp) ∧
      Yaml.getPath cfg' ["database", "wordpress_user", "password"] = some (.str wpp) ∧
      Yaml.getPath cfg' ["wordpress", "admin_user", "password"] = some (.str ap) := by
  obtain ⟨cfg', hs, hD, hR, hW, hA, _⟩ :=
    subst_auto_master src hwp hsec hdb hroot hrp hwpu hwppw hadm hap
  have hid : substSalts src 0 salt_keys sec = sec := substSalts_id _ _ _ hsalts
  refine ⟨cfg', hs, ?_, ?_, ?_, ?_⟩
  · intro key
    rw [hD key, hid]
  · rw [hR, if_neg (by simp [h1])]
  · rw [hW, if_neg (by simp [h2])]
  · rw [hA, if_neg (by simp [h3])]

/-- Witness for C6's amended theorem on the fully-populated example
config. -/
theorem second_pass_identity_amended_witness :
    ∃ cfg', _substitute_auto_values (fun n => n) (.map exampleConfigKvs) = .ok cfg' ∧
      (∀ key, Yaml.getPath cfg' ["wordpress", "security", key] =
        alookup [("auth_key", Yaml.str "k1"), ("secure_auth_key", Yaml.str "k2"),
          ("logged_in_key", Yaml.str "k3"), ("nonce_key", Yaml.str "k4"),
          ("auth_salt", Yaml.str "s1"), ("secure_auth_salt", Yaml.str "s2"),
          ("logged_in_salt", Yaml.str "s3"), ("nonce_salt", Yaml.str "s4")] key) ∧
      Yaml.getPath cfg' ["database", "root_user", "password"] = some (.str "RootPass34!") ∧
      Yaml.getPath cfg' ["database", "wordpress_user", "password"] = some (.str "WpPass12!") ∧
      Yaml.getPath cfg' ["wordpress", "admin_user", "password"] = some (.str "AdminPass78!") :=
  second_pass_identity_amended (fun n => n) rfl rfl rfl rfl rfl rfl rfl rfl rfl
    (by decide) (by decide) (by decide) (by decide)

end ClaimC6

section ClaimC9

/-- Claim C9: on a config tree whose secret fields are all already
populated — no salt empty or absent, no password containing `auto`
case-insensitively — the full generation pass (secret substitution
followed by rendering all four artifacts) is independent of the random
stream: two runs produce byte-identical text for each artifact. -/
theorem generation_deterministic (src₁ src₂ : RandSrc)
    {kvs wkvs sec dkvs rkvs ukvs akvs : List (String × Yaml)} {rp wpp ap : String}
    (hwp : alookup kvs "wordpress" = some (.map wkvs))
    (hsec : alookup wkvs "security" = some (.map sec))
    (hdb : alookup kvs "database" = some (.map dkvs))
    (hroot : alookup dkvs "root_user" = some (.map rkvs))
    (hrp : alookup rkvs "password" = some (.str rp))
    (hwpu : alookup dkvs "wordpress_user" = some (.map ukvs))
    (hwppw : alookup ukvs "password" = some (.str wpp))
    (hadm : alookup wkvs "admin_user" = some (.map akvs))
    (hap : alookup akvs "password" = some (.str ap))
    (hsalts : ∀ k ∈ salt_keys, Yaml.truthy ((alookup sec k).getD .null) = true)
    (h1 : strContains (Yaml.pyLower rp) "auto" = false)
    (h2 : strContains (Yaml.pyLower wpp) "auto" = false)
    (h3 : strContains (Yaml.pyLower ap) "auto" = false) :
    generate_all_configs src₁ (.map kvs) = generate_all_configs src₂ (.map kvs) := by
  obtain ⟨c1, hs1, _, _, _, _, hfix1⟩ :=
    subst_auto_master src₁ hwp hsec hdb hroot hrp hwpu hwppw hadm hap
  obtain ⟨c2, hs2, _, _, _, _, hfix2⟩ :=
    subst_auto_master src₂ hwp hsec hdb hroot hrp hwpu hwppw hadm hap
  have e1 := hfix1 h1 h2 h3 hsalts
  have e2 := hfix2 h1 h2 h3 hsalts
  simp only [generate_all_configs, Bind.bind]
  rw [hs1, hs2, e1, e2]

/-- Witness for C9 on the fully-populated example config with two different
streams. -/
theorem generation_deterministic_witness :
    generate_all_configs (fun _ => 0) (.map exampleConfigKvs) =
      generate_all_configs (fun _ => 1) (.map exampleConfigKvs) :=
  generation_deterministic (fun _ => 0) (fun _ => 1)
    rfl rfl rfl rfl rfl rfl rfl rfl rfl (by decide) (by decide) (by decide) (by decide)

end ClaimC9

section ClaimC8

/-- Is a generator result a success? -/
def isOkE {α : Type} : Except PyErr α → Bool
  | .ok _ => true
  | .error _ => false

theorem dc_fails_no_name {kvs dkvs : List (String × Yaml)}
    (hdb : alookup kvs "database" = some (.map dkvs))
    (hname : alookup dkvs "name" = none) :
    ∀ s, generate_docker_compose (.map kvs) ≠ .ok s := by
  intro s hok
  simp only [generate_docker_compose, Bind.bind] at hok
  obtain ⟨v, hv, _⟩ := except_bind_ok hok
  simp only [extractDc, Bind.bind] at hv
  obtain ⟨sct, hsct, hv⟩ := except_bind_ok hv
  simp only [extractDcSections, Bind.bind] at hsct
  obtain ⟨db, hdb', hsct⟩ := except_bind_ok hsct
  rw [show Yaml.getItem (.map kvs) "database" = .ok (.map dkvs) by
    simp [Yaml.getItem, hdb]] at hdb'
  obtain rfl : Yaml.map dkvs = db := by simpa using hdb'
  obtain ⟨wp, _, hsct⟩ := except_bind_ok hsct
  obtain ⟨infra, _, hsct⟩ := except_bind_ok hsct
  obtain ⟨ssl, _, hsct⟩ := except_bind_ok hsct
  obtain ⟨serv, _, hsct⟩ := except_bind_ok hsct
  obtain ⟨ports, _, hsct⟩ := except_bind_ok hsct
  obtain rfl : (⟨.map dkvs, wp, infra, ssl, serv, ports⟩ : DcSections) = sct := by
    simpa [Pure.pure, Except.pure] using hsct
  obtain ⟨hp, _, hv⟩ := except_bind_ok hv
  obtain ⟨hsp, _, hv⟩ := except_bind_ok hv
  obtain ⟨mp, _, hv⟩ := except_bind_ok hv
  obtain ⟨b, hb, hv⟩ := except_bind_ok hv
  simp only [extractDcBase, Bind.bind] at hb
  obtain ⟨wpv, _, hb⟩ := except_bind_ok hb
  obtain ⟨php, _, hb⟩ := except_bind_ok hb
  obtain ⟨phpv, _, hb⟩ := except_bind_ok hb
  obtain ⟨dwu, _, hb⟩ := except_bind_ok hb
  obtain ⟨dwun, _, hb⟩ := except_bind_ok hb
  obtain ⟨dwp, _, hb⟩ := except_bind_ok hb
  obtain ⟨nm, hnm, hb⟩ := except_bind_ok hb
  rw [show Yaml.getItem (Yaml.map dkvs) "name" = .error (.keyError "name") by
    simp [Yaml.getItem, hname]] at hnm
  exact absurd hnm (by simp)

theorem env_fails_no_name {kvs dkvs : List (String × Yaml)}
    (hdb : alookup kvs "database" = some (.map dkvs))
    (hname : alookup dkvs "name" = none) :
    ∀ s, generate_env_file (.map kvs) ≠ .ok s := by
  intro s hok
  simp only [generate_env_file, Bind.bind] at hok
  obtain ⟨v, hv, _⟩ := except_bind_ok hok
  simp only [extractEnv, Bind.bind] at hv
  obtain ⟨db, hdb', hv⟩ := except_bind_ok hv
  rw [show Yaml.getItem (.map kvs) "database" = .ok (.map dkvs) by
    simp [Yaml.getItem, hdb]] at hdb'
  obtain rfl : Yaml.map dkvs = db := by simpa using hdb'
  obtain ⟨wp, _, hv⟩ := except_bind_ok hv
  obtain ⟨infra, _, hv⟩ := except_bind_ok hv
  obtain ⟨ssl, _, hv⟩ := except_bind_ok hv
  obtain ⟨php, _, hv⟩ := except_bind_ok hv
  obtain ⟨ce, _, hv⟩ := except_bind_ok hv
  obtain ⟨ip, _, hv⟩ := except_bind_ok hv
  obtain ⟨wpv, _, hv⟩ := except_bind_ok hv
  obtain ⟨phpv, _, hv⟩ := except_bind_ok hv
  obtain ⟨nw, _, hv⟩ := except_bind_ok hv
  obtain ⟨cd, _, hv⟩ := except_bind_ok hv
  obtain ⟨ssle, _, hv⟩ := except_bind_ok hv
  obtain ⟨nm, hnm, hv⟩ := except_bind_ok hv
  rw [show Yaml.getItem (Yaml.map dkvs) "name" = .error (.keyError "name") by
    simp [Yaml.getItem, hname]] at hnm
  exact absurd hnm (by simp)

theorem sql_fails_no_name {kvs dkvs : List (String × Yaml)}
    (hdb : alookup kvs "database" = some (.map dkvs))
    (hname : alookup dkvs "name" = none) :
    ∀ s, generate_mysql_init_sql (.map kvs) ≠ .ok s := by
  intro s hok
  simp only [generate_mysql_init_sql, Bind.bind] at hok
  obtain ⟨v, hv, _⟩ := except_bind_ok hok
  simp only [extractSql, Bind.bind] at hv
  obtain ⟨db, hdb', hv⟩ := except_bind_ok hv
  rw [show Yaml.getItem (.map kvs) "database" = .ok (.map dkvs) by
    simp [Yaml.getItem, hdb]] at hdb'
  obtain rfl : Yaml.map dkvs = db := by simpa using hdb'
  obtain ⟨nm, hnm, hv⟩ := except_bind_ok hv
  rw [show Yaml.getItem (Yaml.map dkvs) "name" = .error (.keyError "name") by
    simp [Yaml.getItem, hname]] at hnm
  exact absurd hnm (by simp)

theorem inst_fails_no_name {kvs dkvs : List (String × Yaml)}
    (hdb : alookup kvs "database" = some (.map dkvs))
    (hname : alookup dkvs "name" = none) :
    ∀ s, generate_install_script (.map kvs) ≠ .ok s := by
  intro s hok
  simp only [generate_install_script, Bind.bind] at hok
  obtain ⟨v, hv, _⟩ := except_bind_ok hok
  simp only [extractInst, Bind.bind] at hv
  obtain ⟨wp, _, hv⟩ := except_bind_ok hv
  obtain ⟨auto, _, hv⟩ := except_bind_ok hv
  obtain ⟨site, _, hv⟩ := except_bind_ok hv
  obtain ⟨st, _, hv⟩ := except_bind_ok hv
  obtain ⟨au, _, hv⟩ := except_bind_ok hv
  obtain ⟨aun, _, hv⟩ := except_bind_ok hv
  obtain ⟨ap, _, hv⟩ := except_bind_ok hv
  obtain ⟨ae, _, hv⟩ := except_bind_ok hv
  obtain ⟨su, _, hv⟩ := except_bind_ok hv
  obtain ⟨sl, _, hv⟩ := except_bind_ok hv
  obtain ⟨mwt, _, hv⟩ := except_bind_ok hv
  obtain ⟨db, hdb', hv⟩ := except_bind_ok hv
  rw [show Yaml.getItem (.map kvs) "database" = .ok (.map dkvs) by
    simp [Yaml.getItem, hdb]] at hdb'
  obtain rfl : Yaml.map dkvs = db := by simpa using hdb'
  obtain ⟨dwu, _, hv⟩ := except_bind_ok hv
  obtain ⟨dwun, _, hv⟩ := except_bind_ok hv
  obtain ⟨dwp, _, hv⟩ := except_bind_ok hv
  obtain ⟨nm, hnm, hv⟩ := except_bind_ok hv
  rw [show Yaml.getItem (Yaml.map dkvs) "name" = .error (.keyError "name") by
    simp [Yaml.getItem, hname]] at hnm
  exact absurd hnm (by simp)

/-- A password-substitution step only writes under its own three keys, so a
database section lacking `name` still lacks it afterwards. -/
theorem substPassword_preserves_db_no_name {src : RandSrc} {off : Nat}
    {k1 k2 k3 : String} {cfg cfg' : Yaml} {kvs dkvs : List (String × Yaml)}
    (h : substPassword src off k1 k2 k3 cfg = .ok cfg') (hcfg : cfg = .map kvs)
    (hdb : alookup kvs "database" = some (.map dkvs))
    (hname : alookup dkvs "name" = none) (hk2 : k2 ≠ "name") :
    ∃ kvs' dkvs', cfg' = .map kvs' ∧
      alookup kvs' "database" = some (.map dkvs') ∧
      alookup dkvs' "name" = none := by
  subst hcfg
  simp only [substPassword, Bind.bind] at h
  obtain ⟨s1, _, h⟩ := except_bind_ok h
  obtain ⟨s2, _, h⟩ := except_bind_ok h
  obtain ⟨pw, _, h⟩ := except_bind_ok h
  obtain ⟨low, _, h⟩ := except_bind_ok h
  by_cases hc : strContains low "auto" = true
  · rw [if_pos hc] at h
    obtain rfl : Yaml.setPath (.map kvs) [k1, k2, k3]
        (.str (_generate_random_password src off)) = cfg' := by
      simpa [Pure.pure, Except.pure] using h
    by_cases hk1 : k1 = "database"
    · subst hk1
      have hset : Yaml.setPath (.map kvs) ["database", k2, k3]
          (.str (_generate_random_password src off)) =
          .map (dictSet kvs "database" (.map (dictSet dkvs k2
            (Yaml.setPath ((alookup dkvs k2).getD .null) [k3]
              (.str (_generate_random_password src off)))))) := by
        simp [Yaml.setPath, hdb]
      rw [hset]
      refine ⟨_, dictSet dkvs k2 (Yaml.setPath ((alookup dkvs k2).getD .null) [k3]
        (.str (_generate_random_password src off))), rfl,
        by simp [alookup_dictSet_self], ?_⟩
      rw [alookup_dictSet_ne _ _ (Ne.symm hk2)]
      exact hname
    · have hset : Yaml.setPath (.map kvs) [k1, k2, k3]
          (.str (_generate_random_password src off)) =
          .map (dictSet kvs k1 (Yaml.setPath ((alookup kvs k1).getD .null) [k2, k3]
            (.str (_generate_random_password src off)))) := by
        simp [Yaml.setPath]
      rw [hset]
      refine ⟨_, dkvs, rfl, ?_, hname⟩
      rw [alookup_dictSet_ne _ _ (fun hh => hk1 hh.symm)]
      exact hdb
  · rw [if_neg hc] at h
    obtain rfl : Yaml.map kvs = cfg' := by simpa [Pure.pure, Except.pure] using h
    exact ⟨kvs, dkvs, rfl, hdb, hname⟩

/-- The whole substitution pass preserves the absence of the database name. -/
theorem subst_preserves_db_no_name {src : RandSrc} {cfg' : Yaml}
    {kvs dkvs : List (String × Yaml)}
    (h : _substitute_auto_values src (.map kvs) = .ok cfg')
    (hdb : alookup kvs "database" = some (.map dkvs))
    (hname : alookup dkvs "name" = none) :
    ∃ kvs' dkvs', cfg' = .map kvs' ∧
      alookup kvs' "database" = some (.map dkvs') ∧
      alookup dkvs' "name" = none := by
  simp only [_substitute_auto_values, Bind.bind] at h
  obtain ⟨wp, _, h⟩ := except_bind_ok h
  obtain ⟨sec, _, h⟩ := except_bind_ok h
  cases sec with
  | map secm =>
      simp only at h
      obtain ⟨c2, h2, h⟩ := except_bind_ok h
      have hdb1 : alookup (dictSet kvs "wordpress"
          (Yaml.setPath ((alookup kvs "wordpress").getD .null) ["security"]
            (.map (substSalts src 0 salt_keys secm)))) "database" =
          some (.map dkvs) := by
        rw [alookup_dictSet_ne _ _ (by decide)]
        exact hdb
      obtain ⟨kvs2, dkvs2, rfl, hdb2, hname2⟩ :=
        substPassword_preserves_db_no_name h2 (by simp [Yaml.setPath]) hdb1 hname
          (by decide)
      obtain ⟨c3, h3, h⟩ := except_bind_ok h
      obtain ⟨kvs3, dkvs3, rfl, hdb3, hname3⟩ :=
        substPassword_preserves_db_no_name h3 rfl hdb2 hname2 (by decide)
      exact substPassword_preserves_db_no_name h rfl hdb3 hname3 (by decide)
  | str s => simp at h
  | int n => simp at h
  | bool b => simp at h
  | null => simp at h
  | list xs => simp at h

/-- Claim C8: a config tree whose database section lacks the required
`name` field makes every one of the four artifact generators fail (none
renders with a default), and the full generation pass
(`generate_all_configs`) fails too: the error propagates to the top level. -/
theorem missing_required_field_fails :
    ∀ (kvs dkvs : List (String × Yaml)),
      alookup kvs "database" = some (.map dkvs) →
      alookup dkvs "name" = none →
      (∀ s, generate_docker_compose (.map kvs) ≠ .ok s) ∧
      (∀ s, generate_env_file (.map kvs) ≠ .ok s) ∧
      (∀ s, generate_mysql_init_sql (.map kvs) ≠ .ok s) ∧
      (∀ s, generate_install_script (.map kvs) ≠ .ok s) ∧
      (∀ (src : RandSrc) r, generate_all_configs src (.map kvs) ≠ .ok r) := by
  intro kvs dkvs hdb hname
  refine ⟨dc_fails_no_name hdb hname, env_fails_no_name hdb hname,
    sql_fails_no_name hdb hname, inst_fails_no_name hdb hname, ?_⟩
  intro src r hok
  simp only [generate_all_configs, Bind.bind] at hok
  obtain ⟨cfg', hsub, hok⟩ := except_bind_ok hok
  obtain ⟨kvs', dkvs', rfl, hdb', hname'⟩ :=
    subst_preserves_db_no_name hsub hdb hname
  obtain ⟨dc, hdc, hok⟩ := except_bind_ok hok
  exact dc_fails_no_name hdb' hname' dc hdc

/-- The example config with the `name` key removed from its database
section. -/
def noNameConfig : Yaml := exampleConfig.setPath ["database"]
  (.map [
    ("version", .str "8.0"),
    ("charset", .str "utf8mb4"),
    ("collation", .str "utf8mb4_unicode_ci"),
    ("wordpress_user", .map [("username", .str "wp_user"), ("password", .str "WpPass12!")]),
    ("root_user", .map [("username", .str "root"), ("password", .str "RootPass34!")]),
    ("test_user", .map [("username", .str "test_user"), ("password", .str "TestPass56!")]),
    ("performance", .map [
      ("max_allowed_packet", .str "256M"),
      ("innodb_buffer_pool_size", .str "512M"),
      ("max_connections", .int 200),
      ("query_cache_size", .int 0)])])

/-- The entry list of `noNameConfig` (it is a map by construction). -/
def noNameKvs : List (String × Yaml) :=
  match noNameConfig with
  | .map kvs => kvs
  | _ => []

/-- The database section of `noNameConfig`. -/
def noNameDbKvs : List (String × Yaml) :=
  match alookup noNameKvs "database" with
  | some (.map kvs) => kvs
  | _ => []

/-- Witness for C8: at the concrete no-name config, all four generators and
the full generation pass fail. -/
theorem missing_required_field_fails_witness :
    isOkE (generate_docker_compose (.map noNameKvs)) = false ∧
    isOkE (generate_env_file (.map noNameKvs)) = false ∧
    isOkE (generate_mysql_init_sql (.map noNameKvs)) = false ∧
    isOkE (generate_install_script (.map noNameKvs)) = false ∧
    isOkE (generate_all_configs (fun _ => 0) (.map noNameKvs)) = false := by
  have h := missing_required_field_fails noNameKvs noNameDbKvs (by rfl) (by rfl)
  refine ⟨?_, ?_, ?_, ?_, ?_⟩
  · cases hx : generate_docker_compose (.map noNameKvs) with
    | ok s => exact absurd hx (h.1 s)
    | error e => simp [isOkE]
  · cases hx : generate_env_file (.map noNameKvs) with
    | ok s => exact absurd hx (h.2.1 s)
    | error e => simp [isOkE]
  · cases hx : generate_mysql_init_sql (.map noNameKvs) with
    | ok s => exact absurd hx (h.2.2.1 s)
    | error e => simp [isOkE]
  · cases hx : generate_install_script (.map noNameKvs) with
    | ok s => exact absurd hx (h.2.2.2.1 s)
    | error e => simp [isOkE]
  · cases hx : generate_all_configs (fun _ => 0) (.map noNameKvs) with
    | ok r => exact absurd hx (h.2.2.2.2 (fun _ => 0) r)
    | error e => simp [isOkE]

end ClaimC8

section ClaimC7

/-- Claim C7: for every plugin install entry, the install-script generator
emits per variant: `local` → exactly one activation-by-slug command and no
install command; `wordpress_org` → one install-by-slug command with the
activation flag appended iff `activate` is true; `zip_url` → one install
command that uses the entry's `url` (not its slug) with the activation flag
appended iff `activate` is true.  The last three conjuncts check the spec's
concrete examples (`foo`/`bar`/`baz`), counting command occurrences. -/
theorem plugin_variant_dispatch :
    (∀ kvs slug, alookup kvs "source" = some (Yaml.str "local") →
      alookup kvs "slug" = some slug →
      pluginLines (.map kvs) = .ok
        ("    log_info \"Activating plugin: " ++ Yaml.pyStr slug ++ "\"\n" ++
         "    docker-compose exec -T wpcli wp plugin activate " ++
           Yaml.pyStr slug ++ "\n")) ∧
    (∀ kvs slug (act : Bool),
      alookup kvs "source" = some (Yaml.str "wordpress_org") →
      alookup kvs "slug" = some slug →
      alookup kvs "activate" = some (Yaml.bool act) →
      pluginLines (.map kvs) = .ok
        ("    log_info \"Installing plugin from WordPress.org: " ++
           Yaml.pyStr slug ++ "\"\n" ++
         "    docker-compose exec -T wpcli wp plugin install " ++
           Yaml.pyStr slug ++ " " ++ (if act then "--activate" else "") ++ "\n")) ∧
    (∀ kvs slug url (act : Bool),
      alookup kvs "source" = some (Yaml.str "zip_url") →
      alookup kvs "slug" = some slug →
      alookup kvs "url" = some url →
      alookup kvs "activate" = some (Yaml.bool act) →
      pluginLines (.map kvs) = .ok
        ("    log_info \"Installing plugin from URL: " ++ Yaml.pyStr slug ++ "\"\n" ++
         "    docker-compose exec -T wpcli wp plugin install " ++
           Yaml.pyStr url ++ " " ++ (if act then "--activate" else "") ++ "\n")) ∧
    (pluginLines (.map [("source", Yaml.str "local"), ("slug", Yaml.str "foo")]) =
      .ok "    log_info \"Activating plugin: foo\"\n    docker-compose exec -T wpcli wp plugin activate foo\n" ∧
     countOccs "    log_info \"Activating plugin: foo\"\n    docker-compose exec -T wpcli wp plugin activate foo\n" "wp plugin activate" = 1 ∧
     countOccs "    log_info \"Activating plugin: foo\"\n    docker-compose exec -T wpcli wp plugin activate foo\n" "wp plugin install" = 0) ∧
    (pluginLines (.map [("source", Yaml.str "wordpress_org"), ("slug", Yaml.str "bar"),
        ("activate", Yaml.bool true)]) =
      .ok "    log_info \"Installing plugin from WordPress.org: bar\"\n    docker-compose exec -T wpcli wp plugin install bar --activate\n" ∧
     countOccs "    log_info \"Installing plugin from WordPress.org: bar\"\n    docker-compose exec -T wpcli wp plugin install bar --activate\n" "wp plugin install" = 1 ∧
     countOccs "    log_info \"Installing plugin from WordPress.org: bar\"\n    docker-compose exec -T wpcli wp plugin install bar --activate\n" "--activate" = 1) ∧
    (pluginLines (.map [("source", Yaml.str "zip_url"), ("slug", Yaml.str "baz"),
        ("url", Yaml.str "https://x/y.zip"), ("activate", Yaml.bool false)]) =
      .ok "    log_info \"Installing plugin from URL: baz\"\n    docker-compose exec -T wpcli wp plugin install https://x/y.zip \n" ∧
     countOccs "    log_info \"Installing plugin from URL: baz\"\n    docker-compose exec -T wpcli wp plugin install https://x/y.zip \n" "wp plugin install https://x/y.zip" = 1 ∧
     countOccs "    log_info \"Installing plugin from URL: baz\"\n    docker-compose exec -T wpcli wp plugin install https://x/y.zip \n" "--activate" = 0) := by
  refine ⟨?_, ?_, ?_, ?_, ?_, ?_⟩
  · intro kvs slug hs hslug
    simp [pluginLines, Yaml.getItem, hs, hslug, Bind.bind, Except.bind,
      BEq.beq, Yaml.beq, Pure.pure, Except.pure]
  · intro kvs slug act hs hslug hact
    simp [pluginLines, Yaml.getItem, Yaml.pyGet, hs, hslug, hact, Bind.bind,
      Except.bind, BEq.beq, Yaml.beq, Yaml.truthy, Pure.pure, Except.pure]
  · intro kvs slug url act hs hslug hurl hact
    simp [pluginLines, Yaml.getItem, Yaml.pyGet, hs, hslug, hurl, hact,
      Bind.bind, Except.bind, BEq.beq, Yaml.beq, Yaml.truthy, Pure.pure,
      Except.pure]
  · exact ⟨by rfl, by decide, by decide⟩
  · exact ⟨by rfl, by decide, by decide⟩
  · exact ⟨by rfl, by decide, by decide⟩

/-- Witness for C7 at concrete inputs. -/
theorem plugin_variant_dispatch_witness :
    pluginLines (.map [("source", Yaml.str "local"), ("slug", Yaml.str "w1")]) = .ok
      ("    log_info \"Activating plugin: " ++ Yaml.pyStr (Yaml.str "w1") ++ "\"\n" ++
       "    docker-compose exec -T wpcli wp plugin activate " ++
         Yaml.pyStr (Yaml.str "w1") ++ "\n") ∧
    pluginLines (.map [("source", Yaml.str "wordpress_org"), ("slug", Yaml.str "w2"),
        ("activate", Yaml.bool false)]) = .ok
      ("    log_info \"Installing plugin from WordPress.org: " ++
         Yaml.pyStr (Yaml.str "w2") ++ "\"\n" ++
       "    docker-compose exec -T wpcli wp plugin install " ++
         Yaml.pyStr (Yaml.str "w2") ++ " " ++ (if false then "--activate" else "") ++ "\n") ∧
    pluginLines (.map [("source", Yaml.str "zip_url"), ("slug", Yaml.str "w3"),
        ("url", Yaml.str "https://e/p.zip"), ("activate", Yaml.bool true)]) = .ok
      ("    log_info \"Installing plugin from URL: " ++ Yaml.pyStr (Yaml.str "w3") ++ "\"\n" ++
       "    docker-compose exec -T wpcli wp plugin install " ++
         Yaml.pyStr (Yaml.str "https://e/p.zip") ++ " " ++
         (if true then "--activate" else "") ++ "\n") :=
  ⟨plugin_variant_dispatch.1 _ _ rfl rfl,
   plugin_variant_dispatch.2.1 _ _ false rfl rfl rfl,
   plugin_variant_dispatch.2.2.1 _ _ _ true rfl rfl rfl rfl⟩

end ClaimC7

section ClaimC10

/-- Claim C10: a plugin entry whose `source` is none of the three
recognized variants produces no command block and no error (the generator
silently emits the empty string for it), exactly as an unrecognized
post-install action token does. -/
theorem unrecognized_plugin_source_skipped :
    (∀ kvs v, alookup kvs "source" = some v →
      (v == Yaml.str "local") = false →
      (v == Yaml.str "wordpress_org") = false →
      (v == Yaml.str "zip_url") = false →
      pluginLines (.map kvs) = .ok "") ∧
    (∀ a, (a == Yaml.str "flush_rewrite_rules") = false →
      (a == Yaml.str "set_permissions") = false →
      actionLines a = "") := by
  constructor
  · intro kvs v hs h1 h2 h3
    simp [pluginLines, Yaml.getItem, hs, h1, h2, h3, Bind.bind, Except.bind,
      Pure.pure, Except.pure]
  · intro a h1 h2
    simp [actionLines, h1, h2]

/-- Witness for C10: an entry with source `"svn"` and an action token
`"optimize_tables"` are both skipped silently. -/
theorem unrecognized_plugin_source_skipped_witness :
    pluginLines (.map [("source", Yaml.str "svn"), ("slug", Yaml.str "w4")]) = .ok "" ∧
    actionLines (Yaml.str "optimize_tables") = "" :=
  ⟨unrecognized_plugin_source_skipped.1 _ _ rfl (by decide) (by decide) (by decide),
   unrecognized_plugin_source_skipped.2 _ (by decide) (by decide)⟩

end ClaimC10

end WebpMigrator
